import Mathlib

/-!
# GCID front ends: the browser page (`frontend/app.js`) and the React client
(`frontend-aaa/src/App.jsx`)

Both clients are event-driven controllers around one WebSocket.  Each is embedded
as a state record together with one function per handler of the source; the
browser supplies the events (`Event`) and the readings the handlers take from it
(layout sizes, `performance.now()`, the result of `JSON.parse`).

Conventions of the embedding:
* numbers that the wire protocol carries as pixel coordinates are rationals, so
  scaling is exact arithmetic (no IEEE rounding is modelled);
* incoming messages are records with the fields of the wire schema
  (`type`, `image`, `landmarks`, `canvas`, `tool`, `page_index`, `total_pages`,
  `gestures`), an absent field being `none`; the value of a landmark is either a
  pair `[x, y]` or a value that cannot be destructured, on which the handlers
  throw;
* a function of the source that can throw returns an `Outcome` (or an `Except`
  where it changes nothing before throwing);
* strings are sequences of UTF-16 code units where the source slices them.
-/

namespace GCID

/-! ## JavaScript numbers, `parseInt` and the int32 operators -/

/-- A JavaScript Number as far as `parseInt` can produce one: `NaN`, an infinity,
or an integer value (`-0` is identified with `0`; both behave alike under `>>`
and `&`). -/
inductive JsNumber where
  | nan
  | infinity (negative : Bool)
  | finite (v : Int)
  deriving DecidableEq, Repr

/-- The code units of a string, as JavaScript indexes and slices them. -/
def utf16 (s : String) : List Nat :=
  s.toList.flatMap fun c =>
    if c.toNat < 0x10000 then [c.toNat]
    else [0xD800 + (c.toNat - 0x10000) / 0x400, 0xDC00 + (c.toNat - 0x10000) % 0x400]

/-- The code units `parseInt` skips at the start of its input (ECMAScript
`StrWhiteSpaceChar`: white space and line terminators). -/
def isStrWhiteSpace (c : Nat) : Bool :=
  [9, 10, 11, 12, 13, 32, 160, 0x1680, 0x2028, 0x2029, 0x202F, 0x205F, 0x3000, 0xFEFF].contains c
    || (0x2000 ≤ c && c ≤ 0x200A)

/-- The value of a code unit as a digit `0-9`, `a-z` or `A-Z`. -/
def digitValue (c : Nat) : Option Nat :=
  if 48 ≤ c ∧ c ≤ 57 then some (c - 48)
  else if 97 ≤ c ∧ c ≤ 122 then some (c - 87)
  else if 65 ≤ c ∧ c ≤ 90 then some (c - 55)
  else none

/-- The value of a code unit as a digit of radix `R`, if it is one. -/
def radixDigit (R c : Nat) : Option Nat :=
  match digitValue c with
  | some v => if v < R then some v else none
  | none => none

/-- The digit values of the longest prefix made of radix-`R` digits. -/
def takeDigits (R : Nat) : List Nat → List Nat
  | [] => []
  | c :: cs =>
    match radixDigit R c with
    | some v => v :: takeDigits R cs
    | none => []

/-- The integer a sequence of digit values denotes in radix `R`. -/
def mathInt (R : Nat) (ds : List Nat) : Nat :=
  ds.foldl (fun acc d => acc * R + d) 0

/-- The Number value of a natural number: itself below `2 ^ 53`, otherwise
rounded to 53 significant bits (ties to even); `none` when the result
overflows to `Infinity`. -/
def toDouble (n : Nat) : Option Nat :=
  if n < 2 ^ 53 then some n
  else
    let shift := Nat.log2 n + 1 - 53
    let q := n / 2 ^ shift
    let rest := n % 2 ^ shift
    let half := 2 ^ (shift - 1)
    let q1 := if rest > half ∨ (rest = half ∧ q % 2 = 1) then q + 1 else q
    let v := q1 * 2 ^ shift
    if v < 2 ^ 1024 then some v else none

/-- The steps of `parseInt(string, radix)` for a radix in `2..36`: skip white
space, read a sign, strip `0x`/`0X` when the radix is 16, read the longest
prefix of digits; no digit gives `NaN`. -/
def parseInt (input : List Nat) (radix : Nat) : JsNumber :=
  if radix < 2 ∨ 36 < radix then JsNumber.nan
  else
    let s := input.dropWhile isStrWhiteSpace
    let negative := s.head? = some 45
    let s := if s.head? = some 45 ∨ s.head? = some 43 then s.drop 1 else s
    let s :=
      if radix = 16 ∧ (s.take 2 = [48, 120] ∨ s.take 2 = [48, 88]) then s.drop 2 else s
    let z := takeDigits radix s
    if z = [] then JsNumber.nan
    else
      match toDouble (mathInt radix z) with
      | none => JsNumber.infinity negative
      | some m => JsNumber.finite (if negative then -(m : Int) else (m : Int))

/-- The abstract operation `ToInt32`, applied by `>>` and `&` to their operands. -/
def toInt32 : JsNumber → Int
  | JsNumber.finite v =>
    let m := v % 2 ^ 32
    if m ≥ 2 ^ 31 then m - 2 ^ 32 else m
  | _ => 0

/-- The operator `a >> k` on an int32 (sign-propagating shift: floor division). -/
def sar (a : Int) (k : Nat) : Int := a / 2 ^ k

/-- The operator `a & 255` on an int32 (the low eight bits). -/
def and255 (a : Int) : Int := a % 256

/-- The object `{r, g, b}` returned by `hexToRgb`. -/
structure Rgb where
  r : Int
  g : Int
  b : Int
  deriving DecidableEq, Repr

/-! ## JSON values and `JSON.stringify` -/

/-- A JSON value.  Numbers are integers, as the clients send them; an integer
that is not itself a Number stands for the Number nearest to it. -/
inductive Json where
  | null
  | bool (b : Bool)
  | num (n : Int)
  | str (s : String)
  | arr (items : List Json)
  | obj (members : List (String × Json))

namespace JSON

/-- Two lower-case hexadecimal digits of a number below 256. -/
def hex2 (n : Nat) : String :=
  String.mk [Nat.digitChar (n / 16), Nat.digitChar (n % 16)]

/-- The escape `JSON.stringify` writes for one character of a string. -/
def escapeChar (c : Char) : String :=
  if c.toNat = 34 then "\\\""
  else if c.toNat = 92 then "\\\\"
  else if c.toNat = 8 then "\\b"
  else if c.toNat = 9 then "\\t"
  else if c.toNat = 10 then "\\n"
  else if c.toNat = 12 then "\\f"
  else if c.toNat = 13 then "\\r"
  else if c.toNat < 32 then "\\u00" ++ hex2 c.toNat
  else String.singleton c

/-- A string as a JSON string literal. -/
def quote (s : String) : String :=
  "\"" ++ String.join (s.toList.map escapeChar) ++ "\""

/-- The distance between two natural numbers. -/
def gap (a b : Nat) : Nat := if a ≤ b then b - a else a - b

/-- Of two decimal forms `s * 10 ^ e` the one Number-to-string prefers for `m`:
the closer one, and of two equally close the one with even `s`. -/
def better (m : Nat) (a b : Nat × Nat) : Nat × Nat :=
  if gap (b.1 * 10 ^ b.2) m < gap (a.1 * 10 ^ a.2) m then b
  else if gap (b.1 * 10 ^ b.2) m = gap (a.1 * 10 ^ a.2) m ∧ b.1 % 2 = 0 then b
  else a

/-- The decimal forms `s * 10 ^ e`, with `s` of exactly `k` digits, whose Number
value is `m`. -/
def decimalForms (m k : Nat) : List (Nat × Nat) :=
  let d := (Nat.toDigits 10 m).length
  ([d - k, d - k + 1].flatMap fun e => [(m / 10 ^ e, e), (m / 10 ^ e + 1, e)]).filter fun f =>
    10 ^ (k - 1) ≤ f.1 && f.1 < 10 ^ k && toDouble (f.1 * 10 ^ f.2) == some m

/-- The decimal form of `m` with the fewest digits. -/
def shortestForm (m : Nat) : Nat × Nat :=
  match ((List.range 22).drop 1).filterMap fun k =>
      match decimalForms m k with
      | [] => none
      | f :: fs => some (fs.foldl (better m) f) with
  | f :: _ => f
  | [] => (m, 0)

/-- Number-to-string for a Number `m` that is a natural number: plain digits
below `2 ^ 53`; from there on the shortest digits that denote `m`, followed by
zeros up to 21 digits in all and in exponent form beyond. -/
def numberText (m : Nat) : String :=
  if m < 2 ^ 53 then toString m
  else
    let f := shortestForm m
    let digits := Nat.toDigits 10 f.1
    let n := digits.length + f.2
    if n ≤ 21 then String.mk (digits ++ List.replicate f.2 '0')
    else
      String.mk (digits.take 1) ++
        (if digits.length > 1 then "." ++ String.mk (digits.drop 1) else "") ++
        "e+" ++ toString (n - 1)

/-- The text of a number in JSON; an infinity is written `null`. -/
def numText (n : Int) : String :=
  match toDouble n.natAbs with
  | none => "null"
  | some m => (if n < 0 then "-" else "") ++ numberText m

mutual
/-- The text `JSON.stringify` produces (no indentation). -/
def stringify : Json → String
  | Json.null => "null"
  | Json.bool b => if b then "true" else "false"
  | Json.num n => numText n
  | Json.str s => quote s
  | Json.arr items => "[" ++ stringifyItems items ++ "]"
  | Json.obj members => "\x7b" ++ stringifyMembers members ++ "\x7d"
/-- The elements of an array, separated by commas. -/
def stringifyItems : List Json → String
  | [] => ""
  | [x] => stringify x
  | x :: y :: rest => stringify x ++ "," ++ stringifyItems (y :: rest)
/-- The members of an object, separated by commas. -/
def stringifyMembers : List (String × Json) → String
  | [] => ""
  | [(k, v)] => quote k ++ ":" ++ stringify v
  | (k, v) :: m :: rest => quote k ++ ":" ++ stringify v ++ "," ++ stringifyMembers (m :: rest)
end

end JSON

/-! ## WebSockets -/

/-- The `readyState` of a WebSocket. -/
inductive ReadyState where
  | CONNECTING
  | OPEN
  | CLOSING
  | CLOSED
  deriving DecidableEq, Repr

/-- A WebSocket object: its URL, its state and the text frames handed to it for
transmission. -/
structure Socket where
  url : String
  readyState : ReadyState
  sent : List String
  deriving DecidableEq, Repr

/-- The constructor `new WebSocket(url)`: the socket starts in `CONNECTING`. -/
def Socket.create (url : String) : Socket :=
  { url := url, readyState := ReadyState.CONNECTING, sent := [] }

/-- The method `close()`: a socket that is connecting or open starts closing;
one that is closing or closed is left alone.  The close event comes later. -/
def Socket.close (k : Socket) : Socket :=
  match k.readyState with
  | ReadyState.CONNECTING => { k with readyState := ReadyState.CLOSING }
  | ReadyState.OPEN => { k with readyState := ReadyState.CLOSING }
  | _ => k

/-- The method `send(text)`: throws `InvalidStateError` while connecting,
transmits when open, and discards the data when closing or closed. -/
def Socket.send (k : Socket) (text : String) : Except String Socket :=
  match k.readyState with
  | ReadyState.CONNECTING => Except.error "InvalidStateError"
  | ReadyState.OPEN => Except.ok { k with sent := k.sent ++ [text] }
  | _ => Except.ok k

/-- A socket that holds or is establishing a connection. -/
def Socket.live (k : Socket) : Bool :=
  k.readyState = ReadyState.CONNECTING || k.readyState = ReadyState.OPEN

/-! ## Wire messages and the overlay canvas -/

/-- How a function of the source ends: it returns, or an exception leaves it.
Either way `state` is the state it leaves behind. -/
inductive Outcome (σ : Type) where
  | returned (state : σ)
  | threw (state : σ)
  deriving DecidableEq, Repr

/-- The state a call leaves behind. -/
def Outcome.state {σ : Type} : Outcome σ → σ
  | Outcome.returned s => s
  | Outcome.threw s => s

/-- What follows a call in the same function: it runs when the call returned and
is skipped when the call threw. -/
def Outcome.map {σ τ : Type} (f : σ → τ) : Outcome σ → Outcome τ
  | Outcome.returned s => Outcome.returned (f s)
  | Outcome.threw s => Outcome.threw (f s)

/-- What follows a call in the same function and does not throw itself: it runs
when the call returned and is skipped when the call threw. -/
def Outcome.andThen {σ : Type} (f : σ → σ) : Outcome σ → Outcome σ
  | Outcome.returned s => Outcome.returned (f s)
  | Outcome.threw s => Outcome.threw s

/-- The value of one landmark: a pair `[x, y]` of numbers, or a value that is not
iterable (a number, a boolean, `null`, a plain object), on which the
destructuring `[x, y] = value` throws a `TypeError`. -/
inductive LandmarkValue where
  | point (x y : ℚ)
  | notIterable
  deriving DecidableEq, Repr

/-- A server message after `JSON.parse`, by the fields the handlers read; a
field the message does not carry is `none`.  The landmarks are listed in the
order in which the object's properties are enumerated. -/
structure Msg where
  type : Option String := none
  image : Option String := none
  landmarks : Option (List (String × LandmarkValue)) := none
  canvas : Option String := none
  tool : Option String := none
  page_index : Option Int := none
  total_pages : Option Int := none
  gestures : Option (List String) := none
  deriving DecidableEq, Repr

/-- One thing painted on a canvas. -/
inductive DrawOp where
  | disc (cx cy r : ℚ) (fillStyle : String) (stroke : Option (String × ℚ))
  | image (src : String) (alpha : ℚ) (width height : Nat)
  deriving DecidableEq, Repr

/-- A canvas element with its 2D context: pixel size, the styles in force and
what has been painted since it was last cleared. -/
structure Canvas where
  width : Nat
  height : Nat
  fillStyle : String := "#000000"
  strokeStyle : String := "#000000"
  lineWidth : ℚ := 1
  content : List DrawOp := []
  deriving DecidableEq, Repr

/-- The call `ctx.clearRect(0, 0, canvas.width, canvas.height)`. -/
def Canvas.clear (c : Canvas) : Canvas := { c with content := [] }

/-- Assigning `canvas.width` and `canvas.height` (this also resets the bitmap). -/
def Canvas.resize (c : Canvas) (w h : Nat) : Canvas :=
  { c with width := w, height := h, content := [] }

/-- The loop over the landmarks in both `drawLandmarks`: each value is
destructured as `[x, y]` and `body` paints it; the first value that cannot be
destructured throws, leaving what was painted so far. -/
def drawEach (body : Canvas → String × ℚ × ℚ → Canvas) :
    Canvas → List (String × LandmarkValue) → Outcome Canvas
  | c, [] => Outcome.returned c
  | c, (k, LandmarkValue.point x y) :: rest => drawEach body (body c (k, x, y)) rest
  | c, (_, LandmarkValue.notIterable) :: _ => Outcome.threw c

/-- JavaScript truthiness of an optional string: present and not empty. -/
def truthyStr : Option String → Bool
  | some s => s ≠ ""
  | none => false

/-- JavaScript truthiness of an optional number: present and not zero. -/
def truthyNum : Option Int → Bool
  | some n => n ≠ 0
  | none => false

/-- What the clients take from the browser as given: `parse` is `JSON.parse`
followed by the reading of the message fields, `none` when `JSON.parse` throws;
`validUrl` tells whether `new WebSocket(url)` accepts the URL (it throws a
`SyntaxError` otherwise). -/
structure Browser where
  parse : String → Option Msg
  validUrl : String → Bool

/-- The list with its `i`-th element replaced by its image under `f`. -/
def updateAt {α : Type} : List α → Nat → (α → α) → List α
  | [], _, _ => []
  | a :: rest, 0, f => f a :: rest
  | a :: rest, i + 1, f => a :: updateAt rest i f

/-! ## The browser page, `frontend/app.js` -/

namespace Vanilla

/-- The module-level variables of `app.js` and the parts of the page they reach.
`sockets` holds every WebSocket created so far and `ws` indexes the one the
variable `ws` refers to; `timers` holds the delays of the pending
`setTimeout(connect, ...)` calls, oldest first; `loading` holds the sources of
the images `drawCanvas` is waiting for.  The client and bounding-box sizes of
the frame image are readings of the layout. -/
structure State where
  sockets : List Socket
  ws : Option Nat
  timers : List Nat
  wsUrl : String
  statusText : String
  statusBackground : String
  statusColor : String
  frameSrc : Option String
  clientWidth : Nat
  clientHeight : Nat
  rectWidth : ℚ
  rectHeight : ℚ
  overlay : Canvas
  toolText : String
  pageText : String
  gesturesText : String
  lastFrameTime : ℚ
  fps : Option ℚ
  loading : List String
  console : List String
  deriving DecidableEq, Repr

/-- The variable `reconnectInterval`, assigned once. -/
def reconnectInterval : Nat := 1500

/-- The function `resizeCanvas`. -/
def resizeCanvas (s : State) : State :=
  { s with overlay := s.overlay.resize s.clientWidth s.clientHeight }

/-- The function `setStatus(s, color)`. -/
def setStatus (s : State) (text : String) (color : String) : State :=
  { s with
    statusText := text
    statusBackground := if color = "#0a0" then "#e6fff1" else "#ffefef"
    statusColor := if color = "#0a0" then "#046633" else "#900" }

/-- One turn of the loop of `drawLandmarks`, after the destructuring of the
landmark: the scale is the overlay size over
the bounding box of the frame image, and the marker is an arc of radius 6 that
is filled.  `arc` ignores arguments that are not finite, which is what a
bounding box of width or height zero produces. -/
def drawMarker (rectWidth rectHeight : ℚ) (c : Canvas) (landmark : String × ℚ × ℚ) : Canvas :=
  let x := landmark.2.1
  let y := landmark.2.2
  if rectWidth = 0 ∨ rectHeight = 0 then c
  else
    let scaleX := (c.width : ℚ) / rectWidth
    let scaleY := (c.height : ℚ) / rectHeight
    { c with content := c.content ++ [DrawOp.disc (x * scaleX) (y * scaleY) 6 c.fillStyle none] }

/-- The function `drawLandmarks(landmarks)`. -/
def drawLandmarks (s : State) (landmarks : List (String × LandmarkValue)) : Outcome State :=
  let cleared := { s.overlay.clear with fillStyle := "rgba(0,255,0,0.9)" }
  (drawEach (drawMarker s.rectWidth s.rectHeight) cleared landmarks).map fun c =>
    { s with overlay := c }

/-- The function `drawCanvas(b64)`: the image is drawn once it has loaded. -/
def drawCanvas (s : State) (b64 : String) : State :=
  { s with loading := s.loading ++ ["data:image/jpeg;base64," ++ b64] }

/-- The `onload` handler installed by `drawCanvas`, for the `j`-th pending image. -/
def imageLoaded (s : State) (j : Nat) : State :=
  match s.loading[j]? with
  | none => s
  | some src =>
    { s with
      loading := s.loading.eraseIdx j
      overlay := { s.overlay with
        content := s.overlay.content ++
          [DrawOp.image src (19 / 20) s.overlay.width s.overlay.height] } }

/-- The function `handleMessage(msg)`; `now` is the reading of `performance.now()`.
When `drawLandmarks` throws, the rest of the function is skipped. -/
def handleMessage (s : State) (msg : Msg) (now : ℚ) : Outcome State :=
  let branch : Outcome State :=
    if msg.type = some "frame" then
      let s := { s with frameSrc := some ("data:image/jpeg;base64," ++ msg.image.getD "undefined") }
      (drawLandmarks s (msg.landmarks.getD [])).andThen fun s =>
        { s with
          fps := if now - s.lastFrameTime = 0 then none else some (1000 / (now - s.lastFrameTime))
          lastFrameTime := now }
    else if msg.type = some "state" then
      let s := { s with
        toolText := if truthyStr msg.tool then msg.tool.getD "" else "-"
        pageText :=
          toString ((if truthyNum msg.page_index then msg.page_index.getD 0 else 0) + 1) ++ "/" ++
            (if truthyNum msg.total_pages then toString (msg.total_pages.getD 0) else "?") }
      Outcome.returned (if truthyStr msg.canvas then drawCanvas s (msg.canvas.getD "") else s)
    else Outcome.returned s
  branch.andThen fun s =>
    match msg.gestures with
    | some g => { s with gesturesText := if g.length ≠ 0 then ", ".intercalate g else "-" }
    | none => s

/-- The function `connect()`.  When the constructor throws, nothing has been
assigned and the exception leaves the calling handler uncaught. -/
def connect (B : Browser) (s : State) : State :=
  if B.validUrl s.wsUrl then
    { s with sockets := s.sockets ++ [Socket.create s.wsUrl], ws := some s.sockets.length }
  else s

/-- The listener for `open`. -/
def onOpen (s : State) : State := setStatus s "Connected" "#0a0"

/-- The listener for `close`. -/
def onClose (s : State) : State :=
  let s := setStatus s "Disconnected" "#900"
  { s with timers := s.timers ++ [reconnectInterval] }

/-- The listener for `error`; its `ws.close()` acts on the module variable `ws`. -/
def onError (s : State) : State :=
  let s := setStatus s "Error" "#900"
  let s := { s with console := s.console ++ ["error: ws error"] }
  match s.ws with
  | some j => { s with sockets := updateAt s.sockets j Socket.close }
  | none => s

/-- The listener for `message`: the `catch` logs whatever `JSON.parse` or
`handleMessage` throws. -/
def onMessage (B : Browser) (s : State) (data : String) (now : ℚ) : State :=
  match B.parse data with
  | some msg =>
    match handleMessage s msg now with
    | Outcome.returned s1 => s1
    | Outcome.threw s1 =>
      { s1 with console := s1.console ++ ["warn: non-json message or image chunk"] }
  | none => { s with console := s.console ++ ["warn: non-json message or image chunk"] }

/-- The function `sendCommand(action, params = {})`; an error is an exception
leaving the function. -/
def sendCommand (s : State) (action : String) (params : Option Json) : Except String State :=
  match s.ws with
  | none => Except.ok s
  | some i =>
    match s.sockets[i]? with
    | none => Except.ok s
    | some k =>
      if k.readyState ≠ ReadyState.OPEN then Except.ok s
      else
        match k.send (JSON.stringify (Json.obj
            [("type", Json.str "command"), ("action", Json.str action),
              ("params", params.getD (Json.obj []))])) with
        | Except.error e => Except.error e
        | Except.ok k1 => Except.ok { s with sockets := updateAt s.sockets i fun _ => k1 }

/-- The function `hexToRgb(hex)`. -/
def hexToRgb (hex : String) : Rgb :=
  let bigint := parseInt ((utf16 hex).drop 1) 16
  { r := and255 (sar (toInt32 bigint) 16)
    g := and255 (sar (toInt32 bigint) 8)
    b := and255 (toInt32 bigint) }

/-- The `input` listener of the colour picker. -/
def colorInput (s : State) (hex : String) : Except String State :=
  let rgb := hexToRgb hex
  sendCommand s "set_color"
    (some (Json.obj [("color", Json.arr [Json.num rgb.r, Json.num rgb.g, Json.num rgb.b])]))

/-- The `click` listener of the Connect button. -/
def clickConnect (B : Browser) (s : State) : State :=
  let s :=
    match s.ws with
    | some j =>
      match s.sockets[j]? with
      | some k =>
        if k.readyState = ReadyState.OPEN then { s with sockets := updateAt s.sockets j Socket.close }
        else s
      | none => s
    | none => s
  connect B s

/-- What can happen to the page.  `timer` is the oldest pending timeout firing;
`open`, `close`, `error` and `message` are events of the `i`-th socket; `command`
is any control calling `sendCommand`; `url` is the user editing the URL field;
`layout` is the browser changing the sizes
of the frame image and `resize` a window resize or a frame load. -/
inductive Event where
  | click
  | timer
  | open (i : Nat)
  | close (i : Nat)
  | error (i : Nat)
  | message (i : Nat) (data : String) (now : ℚ)
  | command (action : String) (params : Option Json)
  | color (hex : String)
  | url (text : String)
  | layout (clientWidth clientHeight : Nat) (rectWidth rectHeight : ℚ)
  | resize
  | loaded (j : Nat)

/-- One event: the browser's own change of the socket state, then the listener.
An event the browser cannot deliver in the current state changes nothing. -/
def step (B : Browser) (s : State) : Event → State
  | Event.click => clickConnect B s
  | Event.timer =>
    match s.timers with
    | [] => s
    | _ :: rest => connect B { s with timers := rest }
  | Event.open i =>
    match s.sockets[i]? with
    | some k =>
      if k.readyState = ReadyState.CONNECTING then
        onOpen { s with sockets := updateAt s.sockets i fun k => { k with readyState := ReadyState.OPEN } }
      else s
    | none => s
  | Event.close i =>
    match s.sockets[i]? with
    | some k =>
      if k.readyState ≠ ReadyState.CLOSED then
        onClose { s with sockets := updateAt s.sockets i fun k => { k with readyState := ReadyState.CLOSED } }
      else s
    | none => s
  | Event.error i =>
    match s.sockets[i]? with
    | some _ => onError s
    | none => s
  | Event.message i data now =>
    match s.sockets[i]? with
    | some k => if k.readyState = ReadyState.OPEN then onMessage B s data now else s
    | none => s
  | Event.command action params =>
    match sendCommand s action params with
    | Except.ok s1 => s1
    | Except.error _ => s
  | Event.color hex =>
    match colorInput s hex with
    | Except.ok s1 => s1
    | Except.error _ => s
  | Event.url u => { s with wsUrl := u }
  | Event.layout cw ch rw rh =>
    { s with clientWidth := cw, clientHeight := ch, rectWidth := rw, rectHeight := rh }
  | Event.resize => resizeCanvas s
  | Event.loaded j => imageLoaded s j

/-- A sequence of events, in order. -/
def run (B : Browser) (s : State) (events : List Event) : State :=
  events.foldl (step B) s

/-- The page once the script has run: no socket, no timer, and the call
`setStatus('Disconnected', '#900')` made; `page` gives what the document and the
layout provide. -/
def start (page : State) : State :=
  setStatus { page with sockets := [], ws := none, timers := [], fps := some 0, loading := [] }
    "Disconnected" "#900"

/-- The number of sockets that are connecting or open. -/
def liveSockets (s : State) : Nat := (s.sockets.filter Socket.live).length

end Vanilla

/-! ## The React client, `frontend-aaa/src/App.jsx` -/

namespace React

/-- The image element behind `frameImgRef`. -/
structure Img where
  src : Option String
  clientWidth : Nat
  clientHeight : Nat
  deriving DecidableEq, Repr

/-- The state `pageInfo`. -/
structure PageInfo where
  current : Int
  total : Int
  deriving DecidableEq, Repr

/-- A pending `setTimeout(connect, delay)`; `url` is the `wsUrl` the scheduled
`connect` closure was created with. -/
structure Timer where
  delay : Nat
  url : String
  deriving DecidableEq, Repr

/-- The state variables and refs of the component `App`.  `sockets` holds every
WebSocket created so far and `wsRef` indexes the one `wsRef.current` refers to;
`canvas` and `frameImg` are `canvasRef.current` and `frameImgRef.current`,
`none` while the element is not mounted. -/
structure State where
  wsUrl : String
  isConnected : Bool
  status : String
  gestures : List String
  tool : String
  pageInfo : PageInfo
  fps : Option Int
  color : String
  thickness : Int
  sockets : List Socket
  wsRef : Option Nat
  timers : List Timer
  canvas : Option Canvas
  frameImg : Option Img
  lastFrameTime : ℚ
  console : List String
  deriving DecidableEq, Repr

/-- One turn of the `forEach` of `drawLandmarks`, after the destructuring of the
landmark: an arc of radius 8, filled and then stroked. -/
def drawMarker (scaleX scaleY : ℚ) (c : Canvas) (landmark : String × ℚ × ℚ) : Canvas :=
  let x := landmark.2.1
  let y := landmark.2.2
  { c with content := c.content ++
      [DrawOp.disc (x * scaleX) (y * scaleY) 8 c.fillStyle (some (c.strokeStyle, c.lineWidth))] }

/-- The callback `drawLandmarks(landmarks)`. -/
def drawLandmarks (s : State) (landmarks : List (String × LandmarkValue)) : Outcome State :=
  match s.canvas with
  | none => Outcome.returned s
  | some canvas =>
    let ctx := { canvas.clear with
      fillStyle := "rgba(124, 58, 237, 0.9)"
      strokeStyle := "rgba(167, 139, 250, 0.6)"
      lineWidth := 2 }
    let scaleX := (canvas.width : ℚ) / 850
    let scaleY := (canvas.height : ℚ) / 550
    (drawEach (drawMarker scaleX scaleY) ctx landmarks).map fun c => { s with canvas := some c }

/-- The callback `handleMessage(msg)`; `now` is the reading of `performance.now()`.
When `drawLandmarks` throws, the rest of the function is skipped. -/
def handleMessage (s : State) (msg : Msg) (now : ℚ) : Outcome State :=
  let branch : Outcome State :=
    if msg.type = some "frame" then
      let drawn : Outcome State :=
        match msg.landmarks with
        | some landmarks => drawLandmarks s landmarks
        | none =>
          match s.canvas with
          | some canvas => Outcome.returned { s with canvas := some canvas.clear }
          | none => Outcome.returned s
      drawn.andThen fun s =>
        { s with
          fps :=
            if now - s.lastFrameTime = 0 then none
            else some (Int.floor (1000 / (now - s.lastFrameTime) + 1 / 2))
          lastFrameTime := now }
    else if msg.type = some "state" then
      let s := { s with
        tool := if truthyStr msg.tool then msg.tool.getD "" else "pen"
        pageInfo :=
          { current := (if truthyNum msg.page_index then msg.page_index.getD 0 else 0) + 1
            total := if truthyNum msg.total_pages then msg.total_pages.getD 0 else 1 } }
      Outcome.returned
        (match s.frameImg with
        | some img =>
          if truthyStr msg.canvas then
            { s with frameImg := some { img with src := some ("data:image/jpeg;base64," ++ msg.canvas.getD "") } }
          else s
        | none => s)
    else Outcome.returned s
  branch.andThen fun s =>
    match msg.gestures with
    | some g => { s with gestures := g }
    | none => s

/-- The callback `connect`, as created with `wsUrl = url`.  When the constructor
throws, the open socket has been closed already, nothing has been assigned and
the exception leaves the calling handler uncaught. -/
def connect (B : Browser) (url : String) (s : State) : State :=
  let s :=
    match s.wsRef with
    | some j =>
      match s.sockets[j]? with
      | some k =>
        if k.readyState = ReadyState.OPEN then { s with sockets := updateAt s.sockets j Socket.close }
        else s
      | none => s
    | none => s
  if B.validUrl url then
    { s with sockets := s.sockets ++ [Socket.create url], wsRef := some s.sockets.length }
  else s

/-- The handler `ws.onopen`. -/
def onOpen (s : State) : State :=
  { s with isConnected := true, status := "Connected" }

/-- The handler `ws.onclose` of the `i`-th socket. -/
def onClose (s : State) (i : Nat) : State :=
  { s with
    isConnected := false
    status := "Disconnected"
    timers := s.timers ++ [{ delay := 1500, url := ((s.sockets[i]?).map Socket.url).getD s.wsUrl }] }

/-- The handler `ws.onerror` of the `i`-th socket; its `ws.close()` acts on that
socket. -/
def onError (s : State) (i : Nat) : State :=
  { s with
    console := s.console ++ ["error: WebSocket error"]
    status := "Error"
    sockets := updateAt s.sockets i Socket.close }

/-- The handler `ws.onmessage`: the `catch` logs whatever `JSON.parse` or
`handleMessage` throws. -/
def onMessage (B : Browser) (s : State) (data : String) (now : ℚ) : State :=
  match B.parse data with
  | some msg =>
    match handleMessage s msg now with
    | Outcome.returned s1 => s1
    | Outcome.threw s1 => { s1 with console := s1.console ++ ["warn: Non-JSON message"] }
  | none => { s with console := s.console ++ ["warn: Non-JSON message"] }

/-- The callback `sendCommand(action, params = {})`; an error is an exception
leaving the function. -/
def sendCommand (s : State) (action : String) (params : Option Json) : Except String State :=
  match s.wsRef with
  | none => Except.ok s
  | some i =>
    match s.sockets[i]? with
    | none => Except.ok s
    | some k =>
      if k.readyState = ReadyState.OPEN then
        match k.send (JSON.stringify (Json.obj
            [("type", Json.str "command"), ("action", Json.str action),
              ("params", params.getD (Json.obj []))])) with
        | Except.error e => Except.error e
        | Except.ok k1 => Except.ok { s with sockets := updateAt s.sockets i fun _ => k1 }
      else Except.ok s

/-- The function `hexToRgb(hex)`. -/
def hexToRgb (hex : String) : Rgb :=
  let bigint := parseInt ((utf16 hex).drop 1) 16
  { r := and255 (sar (toInt32 bigint) 16)
    g := and255 (sar (toInt32 bigint) 8)
    b := and255 (toInt32 bigint) }

/-- The function `handleColorChange(newColor)`. -/
def handleColorChange (s : State) (newColor : String) : Except String State :=
  let s := { s with color := newColor }
  let rgb := hexToRgb newColor
  sendCommand s "set_color"
    (some (Json.obj [("color", Json.arr [Json.num rgb.r, Json.num rgb.g, Json.num rgb.b])]))

/-- The resize handler and the `onload` handler of the frame image. -/
def handleResize (s : State) : State :=
  match s.canvas, s.frameImg with
  | some canvas, some img => { s with canvas := some (canvas.resize img.clientWidth img.clientHeight) }
  | _, _ => s

/-- What can happen to the component.  `click` is the Connect button, `timer`
the oldest pending timeout firing; `open`, `close`, `error` and `message` are
events of the `i`-th socket; `command` is a call of `sendCommand` and `color` one
of `handleColorChange`; `url` is the user editing the URL field; `layout` is the
browser changing the size of the frame image and `resize` a window resize or a
frame load. -/
inductive Event where
  | click
  | timer
  | open (i : Nat)
  | close (i : Nat)
  | error (i : Nat)
  | message (i : Nat) (data : String) (now : ℚ)
  | command (action : String) (params : Option Json)
  | color (hex : String)
  | url (text : String)
  | layout (clientWidth clientHeight : Nat)
  | resize

/-- One event: the browser's own change of the socket state, then the handler.
An event the browser cannot deliver in the current state changes nothing. -/
def step (B : Browser) (s : State) : Event → State
  | Event.click => connect B s.wsUrl s
  | Event.timer =>
    match s.timers with
    | [] => s
    | t :: rest => connect B t.url { s with timers := rest }
  | Event.open i =>
    match s.sockets[i]? with
    | some k =>
      if k.readyState = ReadyState.CONNECTING then
        onOpen { s with sockets := updateAt s.sockets i fun k => { k with readyState := ReadyState.OPEN } }
      else s
    | none => s
  | Event.close i =>
    match s.sockets[i]? with
    | some k =>
      if k.readyState ≠ ReadyState.CLOSED then
        onClose
          { s with sockets := updateAt s.sockets i fun k => { k with readyState := ReadyState.CLOSED } } i
      else s
    | none => s
  | Event.error i =>
    match s.sockets[i]? with
    | some _ => onError s i
    | none => s
  | Event.message i data now =>
    match s.sockets[i]? with
    | some k => if k.readyState = ReadyState.OPEN then onMessage B s data now else s
    | none => s
  | Event.command action params =>
    match sendCommand s action params with
    | Except.ok s1 => s1
    | Except.error _ => s
  | Event.color hex =>
    match handleColorChange s hex with
    | Except.ok s1 => s1
    | Except.error _ => { s with color := hex }
  | Event.url u => { s with wsUrl := u }
  | Event.layout cw ch =>
    { s with frameImg := s.frameImg.map fun img => { img with clientWidth := cw, clientHeight := ch } }
  | Event.resize => handleResize s

/-- A sequence of events, in order. -/
def run (B : Browser) (s : State) (events : List Event) : State :=
  events.foldl (step B) s

/-- The component after its first render: the `useState` and `useRef` initial
values, the canvas of 850 by 550 of the markup and the frame image without a
source; `clientWidth`, `clientHeight` and `now` are readings of the browser. -/
def start (clientWidth clientHeight : Nat) (now : ℚ) : State :=
  { wsUrl := "ws://localhost:8000/ws"
    isConnected := false
    status := "Disconnected"
    gestures := []
    tool := "pen"
    pageInfo := { current := 1, total := 1 }
    fps := some 0
    color := "#ff0000"
    thickness := 5
    sockets := []
    wsRef := none
    timers := []
    canvas := some { width := 850, height := 550 }
    frameImg := some { src := none, clientWidth := clientWidth, clientHeight := clientHeight }
    lastFrameTime := now
    console := [] }

/-- The number of sockets that are connecting or open. -/
def liveSockets (s : State) : Nat := (s.sockets.filter Socket.live).length

end React

/-! ## Vocabulary of the statements -/

/-- A hexadecimal digit, of either case. -/
def isHexDigit (c : Char) : Bool := "0123456789abcdefABCDEF".toList.contains c

/-- The value of a hexadecimal digit: its place among `0123456789abcdef`. -/
def hexVal (c : Char) : Nat := "0123456789abcdef".toList.indexOf c.toLower

/-- The number a sequence of hexadecimal digits denotes. -/
def hexNumber (digits : List Char) : Nat :=
  digits.foldl (fun n c => 16 * n + hexVal c) 0

/-- The three texts the status label can show. -/
def statusLabels : List String := ["Connected", "Disconnected", "Error"]

/-- The `params` of the `set_color` command for given channel values. -/
def colorParams (r g b : Int) : Json :=
  Json.obj [("color", Json.arr [Json.num r, Json.num g, Json.num b])]

/-- The landmarks object whose values are the given pairs `[x, y]`. -/
def points (landmarks : List (String × ℚ × ℚ)) : List (String × LandmarkValue) :=
  landmarks.map fun lm => (lm.1, LandmarkValue.point lm.2.1 lm.2.2)

/-- Every value of the landmarks object can be destructured as `[x, y]`. -/
def destructurable (landmarks : List (String × LandmarkValue)) : Bool :=
  landmarks.all fun lm => lm.2 ≠ LandmarkValue.notIterable

/-- A browser for the worked examples: it accepts the `ws:` and `wss:` URLs and
parses the two message texts the examples use; every other text the examples
feed it is not JSON. -/
def exampleBrowser : Browser where
  parse := fun text =>
    if text = "\x7b\"type\":\"state\",\"tool\":\"eraser\"\x7d" then
      some { type := some "state", tool := some "eraser" }
    else if text =
        "\x7b\"type\":\"frame\",\"landmarks\":\x7b\"a\":1\x7d,\"gestures\":[\"pinch\"]\x7d" then
      some
        { type := some "frame"
          landmarks := some [("a", LandmarkValue.notIterable)]
          gestures := some ["pinch"] }
    else none
  validUrl := fun u => u.toList.take 5 == "ws://".toList || u.toList.take 6 == "wss://".toList

/-- A page for the worked examples: the frame image is laid out at 1700 by 1100
and the overlay canvas still has the default size of a canvas element. -/
def Vanilla.examplePage : Vanilla.State :=
  { sockets := []
    ws := none
    timers := []
    wsUrl := "ws://localhost:8000/ws"
    statusText := ""
    statusBackground := ""
    statusColor := ""
    frameSrc := none
    clientWidth := 1700
    clientHeight := 1100
    rectWidth := 1700
    rectHeight := 1100
    overlay := { width := 300, height := 150 }
    toolText := "-"
    pageText := "-"
    gesturesText := "-"
    lastFrameTime := 0
    fps := some 0
    loading := []
    console := [] }

/-- The example page after a click on Connect. -/
def Vanilla.exampleConnecting : Vanilla.State :=
  Vanilla.run exampleBrowser (Vanilla.start Vanilla.examplePage) [Vanilla.Event.click]

/-- The component after a click on Connect. -/
def React.exampleConnecting : React.State :=
  React.run exampleBrowser (React.start 1700 1100 0) [React.Event.click]

/-- The example page after a click on Connect and the socket opening. -/
def Vanilla.exampleOpen : Vanilla.State :=
  Vanilla.run exampleBrowser (Vanilla.start Vanilla.examplePage)
    [Vanilla.Event.click, Vanilla.Event.open 0]

/-- The component after a click on Connect and the socket opening. -/
def React.exampleOpen : React.State :=
  React.run exampleBrowser (React.start 1700 1100 0) [React.Event.click, React.Event.open 0]

/-- The first `n` sockets closing one after the other, each close followed by the
reconnect timer firing. -/
def Vanilla.closeAndRetry : Nat → List Vanilla.Event
  | 0 => []
  | n + 1 => Vanilla.closeAndRetry n ++ [Vanilla.Event.close n, Vanilla.Event.timer]

/-- The first `n` sockets closing one after the other, each close followed by the
reconnect timer firing. -/
def React.closeAndRetry : Nat → List React.Event
  | 0 => []
  | n + 1 => React.closeAndRetry n ++ [React.Event.close n, React.Event.timer]

/-! ## `hexToRgb` -/

theorem hexDigit_cases (c : Char) (h : isHexDigit c = true) :
    c.toNat < 0x10000 ∧ radixDigit 16 c.toNat = some (hexVal c) ∧ hexVal c < 16 ∧
      isStrWhiteSpace c.toNat = false ∧ c.toNat ≠ 45 ∧ c.toNat ≠ 43 ∧
      c.toNat ≠ 120 ∧ c.toNat ≠ 88 := by
  have hc : c ∈ "0123456789abcdefABCDEF".toList := by
    simpa [isHexDigit] using h
  simp only [String.toList, List.mem_cons, List.mem_singleton, List.not_mem_nil, or_false] at hc
  rcases hc with h | h | h | h | h | h | h | h | h | h | h | h | h | h | h | h | h | h | h | h | h | h <;>
    subst h <;> decide

theorem utf16_hex_colour (d1 d2 d3 d4 d5 d6 : Char)
    (h1 : isHexDigit d1 = true) (h2 : isHexDigit d2 = true) (h3 : isHexDigit d3 = true)
    (h4 : isHexDigit d4 = true) (h5 : isHexDigit d5 = true) (h6 : isHexDigit d6 = true) :
    (utf16 (String.mk ['#', d1, d2, d3, d4, d5, d6])).drop 1 =
      [d1.toNat, d2.toNat, d3.toNat, d4.toNat, d5.toNat, d6.toNat] := by
  have f1 := (hexDigit_cases d1 h1).1
  have f2 := (hexDigit_cases d2 h2).1
  have f3 := (hexDigit_cases d3 h3).1
  have f4 := (hexDigit_cases d4 h4).1
  have f5 := (hexDigit_cases d5 h5).1
  have f6 := (hexDigit_cases d6 h6).1
  have f0 : '#'.toNat < 65536 := by decide
  simp [utf16, List.flatMap, f0, f1, f2, f3, f4, f5, f6]

theorem parseInt_six_digits (d1 d2 d3 d4 d5 d6 : Char)
    (h1 : isHexDigit d1 = true) (h2 : isHexDigit d2 = true) (h3 : isHexDigit d3 = true)
    (h4 : isHexDigit d4 = true) (h5 : isHexDigit d5 = true) (h6 : isHexDigit d6 = true) :
    parseInt [d1.toNat, d2.toNat, d3.toNat, d4.toNat, d5.toNat, d6.toNat] 16 =
      JsNumber.finite (((((((hexVal d1 * 16 + hexVal d2) * 16 + hexVal d3) * 16 + hexVal d4) * 16 +
        hexVal d5) * 16 + hexVal d6 : Nat) : Int)) := by
  obtain ⟨-, r1, v1, w1, m1, p1, -, -⟩ := hexDigit_cases d1 h1
  obtain ⟨-, r2, v2, -, -, -, x2, y2⟩ := hexDigit_cases d2 h2
  obtain ⟨-, r3, v3, -⟩ := hexDigit_cases d3 h3
  obtain ⟨-, r4, v4, -⟩ := hexDigit_cases d4 h4
  obtain ⟨-, r5, v5, -⟩ := hexDigit_cases d5 h5
  obtain ⟨-, r6, v6, -⟩ := hexDigit_cases d6 h6
  have hd : ∀ n : Nat, n < 2 ^ 53 → toDouble n = some n := by
    intro n hn
    unfold toDouble
    rw [if_pos hn]
  have hb : ((((hexVal d1 * 16 + hexVal d2) * 16 + hexVal d3) * 16 + hexVal d4) * 16 +
      hexVal d5) * 16 + hexVal d6 < 2 ^ 53 := by omega
  simp [parseInt, List.dropWhile, w1, m1, p1, x2, y2, takeDigits, r1, r2, r3, r4, r5, r6, mathInt, hd _ hb]

theorem channels_of_number (v1 v2 v3 v4 v5 v6 : Nat)
    (b1 : v1 < 16) (b2 : v2 < 16) (b3 : v3 < 16) (b4 : v4 < 16) (b5 : v5 < 16) (b6 : v6 < 16) :
    let n := JsNumber.finite ((((((v1 * 16 + v2) * 16 + v3) * 16 + v4) * 16 + v5) * 16 + v6 : Nat) : Int)
    and255 (sar (toInt32 n) 16) = 16 * (v1 : Int) + v2 ∧
      and255 (sar (toInt32 n) 8) = 16 * (v3 : Int) + v4 ∧
      and255 (toInt32 n) = 16 * (v5 : Int) + v6 := by
  intro n
  have e : toInt32 n = ((((((v1 * 16 + v2) * 16 + v3) * 16 + v4) * 16 + v5) * 16 + v6 : Nat) : Int) := by
    simp only [n, toInt32]
    rw [if_neg (by omega)]
    omega
  rw [e]
  simp only [and255, sar]
  refine ⟨?_, ?_, ?_⟩ <;> omega

/-- C10: for a colour made of `#` and six hexadecimal digits of either case,
`hexToRgb` of both clients returns the values of the first, middle and last pair
of digits, each between 0 and 255, and `r * 65536 + g * 256 + b` is the number
the six digits denote; the two `hexToRgb` agree on every input; and the colour
handlers pass exactly these three values as `color` of a `set_color` command. -/
theorem hexToRgb_six_hex_digits (d1 d2 d3 d4 d5 d6 : Char)
    (h1 : isHexDigit d1 = true) (h2 : isHexDigit d2 = true) (h3 : isHexDigit d3 = true)
    (h4 : isHexDigit d4 = true) (h5 : isHexDigit d5 = true) (h6 : isHexDigit d6 = true) :
    Vanilla.hexToRgb (String.mk ['#', d1, d2, d3, d4, d5, d6]) =
        { r := 16 * (hexVal d1 : Int) + hexVal d2
          g := 16 * (hexVal d3 : Int) + hexVal d4
          b := 16 * (hexVal d5 : Int) + hexVal d6 } ∧
      React.hexToRgb (String.mk ['#', d1, d2, d3, d4, d5, d6]) =
        { r := 16 * (hexVal d1 : Int) + hexVal d2
          g := 16 * (hexVal d3 : Int) + hexVal d4
          b := 16 * (hexVal d5 : Int) + hexVal d6 } ∧
      (0 ≤ 16 * (hexVal d1 : Int) + hexVal d2 ∧ 16 * (hexVal d1 : Int) + hexVal d2 ≤ 255) ∧
      (0 ≤ 16 * (hexVal d3 : Int) + hexVal d4 ∧ 16 * (hexVal d3 : Int) + hexVal d4 ≤ 255) ∧
      (0 ≤ 16 * (hexVal d5 : Int) + hexVal d6 ∧ 16 * (hexVal d5 : Int) + hexVal d6 ≤ 255) ∧
      (16 * (hexVal d1 : Int) + hexVal d2) * 65536 + (16 * (hexVal d3 : Int) + hexVal d4) * 256 +
          (16 * (hexVal d5 : Int) + hexVal d6) = hexNumber [d1, d2, d3, d4, d5, d6] ∧
      (∀ input : String, Vanilla.hexToRgb input = React.hexToRgb input) ∧
      (∀ s : Vanilla.State,
        Vanilla.colorInput s (String.mk ['#', d1, d2, d3, d4, d5, d6]) =
          Vanilla.sendCommand s "set_color"
            (some (colorParams (16 * (hexVal d1 : Int) + hexVal d2)
              (16 * (hexVal d3 : Int) + hexVal d4) (16 * (hexVal d5 : Int) + hexVal d6)))) ∧
      (∀ s : React.State,
        React.handleColorChange s (String.mk ['#', d1, d2, d3, d4, d5, d6]) =
          React.sendCommand { s with color := String.mk ['#', d1, d2, d3, d4, d5, d6] } "set_color"
            (some (colorParams (16 * (hexVal d1 : Int) + hexVal d2)
              (16 * (hexVal d3 : Int) + hexVal d4) (16 * (hexVal d5 : Int) + hexVal d6)))) := by
  have v1 := (hexDigit_cases d1 h1).2.2.1
  have v2 := (hexDigit_cases d2 h2).2.2.1
  have v3 := (hexDigit_cases d3 h3).2.2.1
  have v4 := (hexDigit_cases d4 h4).2.2.1
  have v5 := (hexDigit_cases d5 h5).2.2.1
  have v6 := (hexDigit_cases d6 h6).2.2.1
  have hc := channels_of_number _ _ _ _ _ _ v1 v2 v3 v4 v5 v6
  simp only at hc
  obtain ⟨cr, cg, cb⟩ := hc
  have hv : Vanilla.hexToRgb (String.mk ['#', d1, d2, d3, d4, d5, d6]) =
      { r := 16 * (hexVal d1 : Int) + hexVal d2
        g := 16 * (hexVal d3 : Int) + hexVal d4
        b := 16 * (hexVal d5 : Int) + hexVal d6 } := by
    simp only [Vanilla.hexToRgb, utf16_hex_colour d1 d2 d3 d4 d5 d6 h1 h2 h3 h4 h5 h6,
      parseInt_six_digits d1 d2 d3 d4 d5 d6 h1 h2 h3 h4 h5 h6, cr, cg, cb]
  have hr : ∀ input : String, Vanilla.hexToRgb input = React.hexToRgb input := fun _ => rfl
  refine ⟨hv, (hr _) ▸ hv, by omega, by omega, by omega, ?_, hr, ?_, ?_⟩
  · simp only [hexNumber, List.foldl]
    push_cast
    ring
  · intro s
    simp only [Vanilla.colorInput, hv, colorParams]
  · intro s
    simp only [React.handleColorChange, ← hr, hv, colorParams]

/-- C10 at `#ff8001`: the channels are 255, 128 and 1. -/
theorem hexToRgb_six_hex_digits_witness :
    isHexDigit 'f' = true ∧ isHexDigit '8' = true ∧ isHexDigit '0' = true ∧
      isHexDigit '1' = true ∧
      Vanilla.hexToRgb "#ff8001" = { r := 255, g := 128, b := 1 } ∧
      React.hexToRgb "#ff8001" = { r := 255, g := 128, b := 1 } :=
  ⟨by decide, by decide, by decide, by decide,
    (hexToRgb_six_hex_digits 'f' 'f' '8' '0' '0' '1' (by decide) (by decide) (by decide)
      (by decide) (by decide) (by decide)).1,
    (hexToRgb_six_hex_digits 'f' 'f' '8' '0' '0' '1' (by decide) (by decide) (by decide)
      (by decide) (by decide) (by decide)).2.1⟩

/-! ## The landmark overlay -/

theorem drawEach_points (body : Canvas → String × ℚ × ℚ → Canvas)
    (landmarks : List (String × ℚ × ℚ)) (c : Canvas) :
    drawEach body c (points landmarks) = Outcome.returned (landmarks.foldl body c) := by
  induction landmarks generalizing c with
  | nil => rfl
  | cons lm rest ih =>
    obtain ⟨k, x, y⟩ := lm
    simp only [points, List.map_cons, drawEach, List.foldl_cons]
    exact ih _

theorem react_foldl_drawMarker (sx sy : ℚ) (landmarks : List (String × ℚ × ℚ)) (c : Canvas) :
    landmarks.foldl (React.drawMarker sx sy) c =
      { c with content := c.content ++ landmarks.map fun lm =>
          DrawOp.disc (lm.2.1 * sx) (lm.2.2 * sy) 8 c.fillStyle (some (c.strokeStyle, c.lineWidth)) } := by
  induction landmarks generalizing c with
  | nil => simp
  | cons lm rest ih => simp [List.foldl, ih, React.drawMarker]

/-- C1: when the overlay canvas exists, with size `w` by `h`, `drawLandmarks` of
the React client, given a landmarks object whose entries are pairs `[x, y]`,
returns normally and leaves on the canvas exactly one disc of radius 8 per
entry, in order, centred at `(x * w / 850, y * h / 550)`, whatever was painted
before; nothing else of the state changes; and on a canvas of 850 by 550 each
disc is centred at `(x, y)`. -/
theorem react_drawLandmarks_overlay (s : React.State) (canvas : Canvas)
    (landmarks : List (String × ℚ × ℚ)) (hc : s.canvas = some canvas) :
    React.drawLandmarks s (points landmarks) =
        Outcome.returned { s with canvas := some (
          { width := canvas.width
            height := canvas.height
            fillStyle := "rgba(124, 58, 237, 0.9)"
            strokeStyle := "rgba(167, 139, 250, 0.6)"
            lineWidth := 2
            content := landmarks.map fun lm =>
              DrawOp.disc (lm.2.1 * canvas.width / 850) (lm.2.2 * canvas.height / 550) 8
                "rgba(124, 58, 237, 0.9)" (some ("rgba(167, 139, 250, 0.6)", 2)) } : Canvas) } ∧
      (∀ c1, (React.drawLandmarks s (points landmarks)).state.canvas = some c1 →
        c1.content.length = landmarks.length) ∧
      (canvas.width = 850 → canvas.height = 550 →
        ∀ c1, (React.drawLandmarks s (points landmarks)).state.canvas = some c1 →
          c1.content = landmarks.map fun lm =>
            DrawOp.disc lm.2.1 lm.2.2 8 "rgba(124, 58, 237, 0.9)"
              (some ("rgba(167, 139, 250, 0.6)", 2))) := by
  have main : React.drawLandmarks s (points landmarks) =
        Outcome.returned { s with canvas := some (
          { width := canvas.width
            height := canvas.height
            fillStyle := "rgba(124, 58, 237, 0.9)"
            strokeStyle := "rgba(167, 139, 250, 0.6)"
            lineWidth := 2
            content := landmarks.map fun lm =>
              DrawOp.disc (lm.2.1 * canvas.width / 850) (lm.2.2 * canvas.height / 550) 8
                "rgba(124, 58, 237, 0.9)" (some ("rgba(167, 139, 250, 0.6)", 2)) } : Canvas) } := by
    simp only [React.drawLandmarks, hc, drawEach_points, Outcome.map, react_foldl_drawMarker,
      Canvas.clear, List.nil_append, mul_div_assoc]
  refine ⟨main, ?_, ?_⟩
  · intro c1 h1
    rw [main] at h1
    simp only [Outcome.state, Option.some.injEq] at h1
    subst h1
    simp
  · intro hw hh c1 h1
    rw [main] at h1
    simp only [Outcome.state, Option.some.injEq] at h1
    subst h1
    simp [hw, hh]

/-- C1 on a canvas of 1700 by 1100: the landmark `(425, 275)` is painted at
`(850, 550)`. -/
theorem react_drawLandmarks_overlay_witness :
    (React.handleResize (React.start 1700 1100 0)).canvas =
        some { width := 1700, height := 1100 } ∧
      (React.drawLandmarks (React.handleResize (React.start 1700 1100 0))
          (points [("index", 425, 275)])).state.canvas =
        some
          { width := 1700
            height := 1100
            fillStyle := "rgba(124, 58, 237, 0.9)"
            strokeStyle := "rgba(167, 139, 250, 0.6)"
            lineWidth := 2
            content := [DrawOp.disc 850 550 8 "rgba(124, 58, 237, 0.9)"
              (some ("rgba(167, 139, 250, 0.6)", 2))] } := by
  refine ⟨rfl, ?_⟩
  rw [(react_drawLandmarks_overlay (React.handleResize (React.start 1700 1100 0))
    { width := 1700, height := 1100 } [("index", 425, 275)] rfl).1]
  norm_num [Outcome.state]

/-- C2, the code at a frame image laid out at 1700 by 1100 with the overlay
resized to it: the landmark `(850, 550)`, the far corner of the reference frame,
is painted at `(850, 550)` and not at the far corner `(1700, 1100)` of the
overlay; and with the same overlay, a frame image whose bounding box is 850 by
550 moves the marker to `(1700, 1100)`. -/
theorem vanilla_drawLandmarks_uses_bounding_box :
    (Vanilla.resizeCanvas Vanilla.examplePage).overlay.width = 1700 ∧
      (Vanilla.resizeCanvas Vanilla.examplePage).overlay.height = 1100 ∧
      (Vanilla.drawLandmarks (Vanilla.resizeCanvas Vanilla.examplePage)
          [("index", LandmarkValue.point 850 550)]).state.overlay.content =
        [DrawOp.disc 850 550 6 "rgba(0,255,0,0.9)" none] ∧
      (Vanilla.drawLandmarks
          { Vanilla.resizeCanvas Vanilla.examplePage with rectWidth := 850, rectHeight := 550 }
          [("index", LandmarkValue.point 850 550)]).state.overlay.content =
        [DrawOp.disc 1700 1100 6 "rgba(0,255,0,0.9)" none] := by
  refine ⟨rfl, rfl, ?_, ?_⟩ <;>
    norm_num [Vanilla.drawLandmarks, Vanilla.resizeCanvas, Vanilla.examplePage, Canvas.resize,
      Canvas.clear, Vanilla.drawMarker, drawEach, Outcome.map, Outcome.state]

/-! ## `sendCommand` -/

theorem updateAt_length {α : Type} (l : List α) (i : Nat) (f : α → α) :
    (updateAt l i f).length = l.length := by
  induction l generalizing i with
  | nil => rfl
  | cons a rest ih => cases i <;> simp [updateAt, ih]

theorem getElem?_updateAt_self {α : Type} (l : List α) (i : Nat) (f : α → α) :
    (updateAt l i f)[i]? = (l[i]?).map f := by
  induction l generalizing i with
  | nil => rfl
  | cons a rest ih => cases i <;> simp [updateAt, ih]

theorem getElem?_updateAt_ne {α : Type} (l : List α) (i j : Nat) (f : α → α) (h : j ≠ i) :
    (updateAt l i f)[j]? = l[j]? := by
  induction l generalizing i j with
  | nil => rfl
  | cons a rest ih =>
    cases i with
    | zero =>
      cases j with
      | zero => exact absurd rfl h
      | succ j => simp [updateAt]
    | succ i =>
      cases j with
      | zero => simp [updateAt]
      | succ j =>
        have hji : j ≠ i := fun e => h (by rw [e])
        simp [updateAt, ih i j hji]

theorem stringify_command (action : String) (p : Json) :
    JSON.stringify (Json.obj
        [("type", Json.str "command"), ("action", Json.str action), ("params", p)]) =
      "\x7b\"type\":\"command\",\"action\":" ++ JSON.quote action ++ ",\"params\":" ++
        JSON.stringify p ++ "\x7d" := by
  simp only [JSON.stringify, JSON.stringifyMembers]
  have e1 : JSON.quote "type" = "\"type\"" := by decide
  have e2 : JSON.quote "command" = "\"command\"" := by decide
  have e3 : JSON.quote "action" = "\"action\"" := by decide
  have e4 : JSON.quote "params" = "\"params\"" := by decide
  rw [e1, e2, e3, e4]
  apply String.ext
  simp [String.data_append]

/-- C3: in both clients, when the current socket exists and is `OPEN`,
`sendCommand(action, params)` returns normally having handed that socket exactly
one more text frame, every other socket and the rest of the state being
untouched.  The frame is the serialisation of the object with the members
`type` = `"command"`, `action` and `params`, in this order, `params` defaulting
to the empty object: the text `{"type":"command","action":` followed by the
action as a JSON string, `,"params":`, the serialisation of the params and `}`.
In every other case `sendCommand` returns normally with the state, the frames of
every socket included, exactly as it was. -/
theorem sendCommand_frame (sv : Vanilla.State) (sr : React.State) (action : String)
    (params : Option Json) :
    (∀ (i : Nat) (k : Socket), sv.ws = some i → sv.sockets[i]? = some k →
        k.readyState = ReadyState.OPEN →
        ∃ s1, Vanilla.sendCommand sv action params = Except.ok s1 ∧
          s1 = { sv with sockets := s1.sockets } ∧
          s1.sockets.length = sv.sockets.length ∧
          s1.sockets[i]? = some { k with sent := k.sent ++
            [JSON.stringify (Json.obj
              [("type", Json.str "command"), ("action", Json.str action),
                ("params", params.getD (Json.obj []))])] } ∧
          s1.sockets[i]? = some { k with sent := k.sent ++
            ["\x7b\"type\":\"command\",\"action\":" ++ JSON.quote action ++ ",\"params\":" ++
        JSON.stringify (params.getD (Json.obj [])) ++ "\x7d"] } ∧
          ∀ j, j ≠ i → s1.sockets[j]? = sv.sockets[j]?) ∧
      ((∀ (i : Nat) (k : Socket), sv.ws = some i → sv.sockets[i]? = some k →
          k.readyState ≠ ReadyState.OPEN) →
        Vanilla.sendCommand sv action params = Except.ok sv) ∧
      (∀ (i : Nat) (k : Socket), sr.wsRef = some i → sr.sockets[i]? = some k →
        k.readyState = ReadyState.OPEN →
        ∃ s1, React.sendCommand sr action params = Except.ok s1 ∧
          s1 = { sr with sockets := s1.sockets } ∧
          s1.sockets.length = sr.sockets.length ∧
          s1.sockets[i]? = some { k with sent := k.sent ++
            [JSON.stringify (Json.obj
              [("type", Json.str "command"), ("action", Json.str action),
                ("params", params.getD (Json.obj []))])] } ∧
          s1.sockets[i]? = some { k with sent := k.sent ++
            ["\x7b\"type\":\"command\",\"action\":" ++ JSON.quote action ++ ",\"params\":" ++
        JSON.stringify (params.getD (Json.obj [])) ++ "\x7d"] } ∧
          ∀ j, j ≠ i → s1.sockets[j]? = sr.sockets[j]?) ∧
      ((∀ (i : Nat) (k : Socket), sr.wsRef = some i → sr.sockets[i]? = some k →
          k.readyState ≠ ReadyState.OPEN) →
        React.sendCommand sr action params = Except.ok sr) := by
  refine ⟨?_, ?_, ?_, ?_⟩
  · intro i k hws hk hopen
    refine ⟨{ sv with sockets := updateAt sv.sockets i fun _ => { k with sent := k.sent ++
      [JSON.stringify (Json.obj
              [("type", Json.str "command"), ("action", Json.str action),
                ("params", params.getD (Json.obj []))])] } }, ?_, rfl, ?_, ?_, ?_, ?_⟩
    · simp only [Vanilla.sendCommand, hws, hk, hopen, Socket.send, ne_eq, not_true_eq_false,
        if_false]
    · simp [updateAt_length]
    · simp [getElem?_updateAt_self, hk]
    · simp [getElem?_updateAt_self, hk, stringify_command]
    · intro j hj
      simp [getElem?_updateAt_ne _ _ _ _ hj]
  · intro h
    unfold Vanilla.sendCommand
    split
    · rfl
    · rename_i i hws
      split
      · rfl
      · rename_i k hk
        simp [h i k hws hk]
  · intro i k hws hk hopen
    refine ⟨{ sr with sockets := updateAt sr.sockets i fun _ => { k with sent := k.sent ++
      [JSON.stringify (Json.obj
              [("type", Json.str "command"), ("action", Json.str action),
                ("params", params.getD (Json.obj []))])] } }, ?_, rfl, ?_, ?_, ?_, ?_⟩
    · simp only [React.sendCommand, hws, hk, hopen, Socket.send, if_true]
    · simp [updateAt_length]
    · simp [getElem?_updateAt_self, hk]
    · simp [getElem?_updateAt_self, hk, stringify_command]
    · intro j hj
      simp [getElem?_updateAt_ne _ _ _ _ hj]
  · intro h
    unfold React.sendCommand
    split
    · rfl
    · rename_i i hws
      split
      · rfl
      · rename_i k hk
        simp [h i k hws hk]

/-- C3 on the example page and component: with the socket open, `sendCommand('undo')`
hands it the one frame shown; before any socket exists it does nothing. -/
theorem sendCommand_frame_witness :
    (Vanilla.exampleOpen.ws = some 0 ∧
      Vanilla.exampleOpen.sockets[0]? =
        some { url := "ws://localhost:8000/ws", readyState := ReadyState.OPEN, sent := [] } ∧
      ∃ s1, Vanilla.sendCommand Vanilla.exampleOpen "undo" none = Except.ok s1 ∧
        s1.sockets[0]? = some
          { url := "ws://localhost:8000/ws"
            readyState := ReadyState.OPEN
            sent := ["\x7b\"type\":\"command\",\"action\":\"undo\",\"params\":\x7b\x7d\x7d"] }) ∧
      ((Vanilla.start Vanilla.examplePage).ws = none ∧
        Vanilla.sendCommand (Vanilla.start Vanilla.examplePage) "undo" none =
          Except.ok (Vanilla.start Vanilla.examplePage)) ∧
      (React.exampleOpen.wsRef = some 0 ∧
        React.exampleOpen.sockets[0]? =
          some { url := "ws://localhost:8000/ws", readyState := ReadyState.OPEN, sent := [] } ∧
        ∃ s1, React.sendCommand React.exampleOpen "undo" none = Except.ok s1 ∧
          s1.sockets[0]? = some
            { url := "ws://localhost:8000/ws"
              readyState := ReadyState.OPEN
              sent := ["\x7b\"type\":\"command\",\"action\":\"undo\",\"params\":\x7b\x7d\x7d"] }) ∧
      ((React.start 1700 1100 0).wsRef = none ∧
        React.sendCommand (React.start 1700 1100 0) "undo" none =
          Except.ok (React.start 1700 1100 0)) := by
  refine ⟨⟨by decide, by decide, ?_⟩, ⟨by decide, ?_⟩, ⟨by decide, by decide, ?_⟩, ⟨by decide, ?_⟩⟩
  · obtain ⟨s1, h1, -, -, -, h4, -⟩ :=
      (sendCommand_frame Vanilla.exampleOpen React.exampleOpen "undo" none).1 0
        { url := "ws://localhost:8000/ws", readyState := ReadyState.OPEN, sent := [] }
        (by decide) (by decide) rfl
    exact ⟨s1, h1, h4⟩
  · exact (sendCommand_frame (Vanilla.start Vanilla.examplePage) React.exampleOpen "undo" none).2.1
      (fun i k h _ => by cases h)
  · obtain ⟨s1, h1, -, -, -, h4, -⟩ :=
      (sendCommand_frame Vanilla.exampleOpen React.exampleOpen "undo" none).2.2.1 0
        { url := "ws://localhost:8000/ws", readyState := ReadyState.OPEN, sent := [] }
        (by decide) (by decide) rfl
    exact ⟨s1, h1, h4⟩
  · exact (sendCommand_frame Vanilla.exampleOpen (React.start 1700 1100 0) "undo" none).2.2.2
      (fun i k h _ => by cases h)

/-! ## Malformed messages -/

/-- C6: in both clients, when `JSON.parse` rejects the text of a message, the
message handler returns normally and changes nothing but the console, where it
logs a warning; so the same holds for the message event as a whole: every socket
keeps its state and its frames, no timer is added, and the status, tool, page,
gestures, overlay, frame image and fps are as before. -/
theorem malformed_message_ignored (B : Browser) (data : String) (now : ℚ)
    (hbad : B.parse data = none) (sv : Vanilla.State) (sr : React.State) (i : Nat) :
    Vanilla.onMessage B sv data now =
        { sv with console := sv.console ++ ["warn: non-json message or image chunk"] } ∧
      Vanilla.step B sv (Vanilla.Event.message i data now) =
        { sv with console := (Vanilla.step B sv (Vanilla.Event.message i data now)).console } ∧
      React.onMessage B sr data now =
        { sr with console := sr.console ++ ["warn: Non-JSON message"] } ∧
      React.step B sr (React.Event.message i data now) =
        { sr with console := (React.step B sr (React.Event.message i data now)).console } := by
  have hv : Vanilla.onMessage B sv data now =
      { sv with console := sv.console ++ ["warn: non-json message or image chunk"] } := by
    simp only [Vanilla.onMessage, hbad]
  have hr : React.onMessage B sr data now =
      { sr with console := sr.console ++ ["warn: Non-JSON message"] } := by
    simp only [React.onMessage, hbad]
  refine ⟨hv, ?_, hr, ?_⟩
  · simp only [Vanilla.step]
    split
    · split
      · rw [hv]
      · rfl
    · rfl
  · simp only [React.step]
    split
    · split
      · rw [hr]
      · rfl
    · rfl

/-- C6 on the example page and component with the socket open: the text
`not json` only adds a warning to the console. -/
theorem malformed_message_ignored_witness :
    exampleBrowser.parse "not json" = none ∧
      Vanilla.step exampleBrowser Vanilla.exampleOpen (Vanilla.Event.message 0 "not json" 16) =
        { Vanilla.exampleOpen with console := ["warn: non-json message or image chunk"] } ∧
      React.step exampleBrowser React.exampleOpen (React.Event.message 0 "not json" 16) =
        { React.exampleOpen with console := ["warn: Non-JSON message"] } := by
  have h := malformed_message_ignored exampleBrowser "not json" 16 (by decide)
    Vanilla.exampleOpen React.exampleOpen 0
  refine ⟨by decide, ?_, ?_⟩
  · rw [h.2.1]
    rfl
  · rw [h.2.2.2]
    rfl

/-! ## The status label -/

theorem outcome_andThen_proj {σ α : Type} (proj : σ → α) (f : σ → σ) (o : Outcome σ)
    (hf : ∀ x, proj (f x) = proj x) : proj (o.andThen f).state = proj o.state := by
  cases o <;> simp [Outcome.andThen, Outcome.state, hf]

theorem outcome_map_state {σ τ : Type} (f : σ → τ) (o : Outcome σ) :
    (o.map f).state = f o.state := by
  cases o <;> rfl

theorem vanilla_drawLandmarks_status (s : Vanilla.State) (landmarks : List (String × LandmarkValue)) :
    (Vanilla.drawLandmarks s landmarks).state.statusText = s.statusText := by
  unfold Vanilla.drawLandmarks
  simp only [outcome_map_state]

theorem vanilla_handleMessage_status (s : Vanilla.State) (msg : Msg) (now : ℚ) :
    (Vanilla.handleMessage s msg now).state.statusText = s.statusText := by
  unfold Vanilla.handleMessage
  simp only []
  refine (outcome_andThen_proj (fun x : Vanilla.State => x.statusText) _ _ ?_).trans ?_
  · intro x; cases msg.gestures <;> rfl
  by_cases hf : msg.type = some "frame"
  · rw [if_pos hf]
    refine (outcome_andThen_proj (fun x : Vanilla.State => x.statusText) _ _ ?_).trans ?_
    · intro x; rfl
    · exact vanilla_drawLandmarks_status _ _
  · rw [if_neg hf]
    by_cases hs : msg.type = some "state"
    · rw [if_pos hs]
      simp only [Outcome.state, Vanilla.drawCanvas]
      split_ifs <;> rfl
    · rw [if_neg hs]
      rfl

theorem vanilla_onMessage_status (B : Browser) (s : Vanilla.State) (data : String) (now : ℚ) :
    (Vanilla.onMessage B s data now).statusText = s.statusText := by
  unfold Vanilla.onMessage
  split
  · rename_i msg _
    have h := vanilla_handleMessage_status s msg now
    split
    · rename_i s1 h1
      rw [h1] at h
      exact h
    · rename_i s1 h1
      rw [h1] at h
      exact h
  · rfl

theorem vanilla_sendCommand_status (s s1 : Vanilla.State) (action : String) (params : Option Json)
    (h : Vanilla.sendCommand s action params = Except.ok s1) : s1.statusText = s.statusText := by
  unfold Vanilla.sendCommand at h
  split at h
  · cases h; rfl
  · split at h
    · cases h; rfl
    · split_ifs at h
      · cases h; rfl
      · split at h
        · cases h
        · cases h; rfl

theorem vanilla_connect_status (B : Browser) (s : Vanilla.State) :
    (Vanilla.connect B s).statusText = s.statusText := by
  unfold Vanilla.connect
  split_ifs <;> rfl

theorem vanilla_clickConnect_status (B : Browser) (s : Vanilla.State) :
    (Vanilla.clickConnect B s).statusText = s.statusText := by
  unfold Vanilla.clickConnect
  rw [vanilla_connect_status]
  split
  · split
    · split_ifs <;> rfl
    · rfl
  · rfl

theorem vanilla_step_other_status (B : Browser) (s : Vanilla.State) (e : Vanilla.Event)
    (h : ∀ i, e ≠ Vanilla.Event.open i ∧ e ≠ Vanilla.Event.close i ∧ e ≠ Vanilla.Event.error i) :
    (Vanilla.step B s e).statusText = s.statusText := by
  cases e with
  | click => exact vanilla_clickConnect_status B s
  | timer =>
    simp only [Vanilla.step]
    split
    · rfl
    · rw [vanilla_connect_status]
  | «open» i => exact absurd rfl (h i).1
  | close i => exact absurd rfl (h i).2.1
  | error i => exact absurd rfl (h i).2.2
  | message i data now =>
    simp only [Vanilla.step]
    split
    · split_ifs
      · exact vanilla_onMessage_status B s data now
      · rfl
    · rfl
  | command action params =>
    simp only [Vanilla.step]
    split
    · rename_i s1 h1
      exact vanilla_sendCommand_status s s1 action params h1
    · rfl
  | color hex =>
    simp only [Vanilla.step]
    split
    · rename_i s1 h1
      exact vanilla_sendCommand_status s s1 _ _ h1
    · rfl
  | url u => rfl
  | layout cw ch rw rh => rfl
  | resize => rfl
  | loaded j =>
    simp only [Vanilla.step, Vanilla.imageLoaded]
    split <;> rfl

theorem react_drawLandmarks_status (s : React.State) (landmarks : List (String × LandmarkValue)) :
    (React.drawLandmarks s landmarks).state.status = s.status := by
  unfold React.drawLandmarks
  split
  · rfl
  · simp only [outcome_map_state]

theorem react_handleMessage_status (s : React.State) (msg : Msg) (now : ℚ) :
    (React.handleMessage s msg now).state.status = s.status := by
  unfold React.handleMessage
  simp only []
  refine (outcome_andThen_proj (fun x : React.State => x.status) _ _ ?_).trans ?_
  · intro x; cases msg.gestures <;> rfl
  by_cases hf : msg.type = some "frame"
  · rw [if_pos hf]
    refine (outcome_andThen_proj (fun x : React.State => x.status) _ _ ?_).trans ?_
    · intro x; rfl
    · cases msg.landmarks with
      | some l => exact react_drawLandmarks_status _ _
      | none => cases s.canvas <;> rfl
  · rw [if_neg hf]
    by_cases hs : msg.type = some "state"
    · rw [if_pos hs]
      simp only [Outcome.state]
      cases s.frameImg with
      | none => rfl
      | some img => simp only []; split_ifs <;> rfl
    · rw [if_neg hs]
      rfl

theorem react_onMessage_status (B : Browser) (s : React.State) (data : String) (now : ℚ) :
    (React.onMessage B s data now).status = s.status := by
  unfold React.onMessage
  split
  · rename_i msg _
    have h := react_handleMessage_status s msg now
    split
    · rename_i s1 h1
      rw [h1] at h
      exact h
    · rename_i s1 h1
      rw [h1] at h
      exact h
  · rfl

theorem react_sendCommand_status (s s1 : React.State) (action : String) (params : Option Json)
    (h : React.sendCommand s action params = Except.ok s1) : s1.status = s.status := by
  unfold React.sendCommand at h
  split at h
  · cases h; rfl
  · split at h
    · cases h; rfl
    · split_ifs at h
      · split at h
        · cases h
        · cases h; rfl
      · cases h; rfl

theorem react_connect_status (B : Browser) (url : String) (s : React.State) :
    (React.connect B url s).status = s.status := by
  unfold React.connect
  split_ifs <;> (repeat' split) <;> rfl

theorem react_step_other_status (B : Browser) (s : React.State) (e : React.Event)
    (h : ∀ i, e ≠ React.Event.open i ∧ e ≠ React.Event.close i ∧ e ≠ React.Event.error i) :
    (React.step B s e).status = s.status := by
  cases e with
  | click => exact react_connect_status B _ s
  | timer =>
    simp only [React.step]
    split
    · rfl
    · rw [react_connect_status]
  | «open» i => exact absurd rfl (h i).1
  | close i => exact absurd rfl (h i).2.1
  | error i => exact absurd rfl (h i).2.2
  | message i data now =>
    simp only [React.step]
    split
    · split_ifs
      · exact react_onMessage_status B s data now
      · rfl
    · rfl
  | command action params =>
    simp only [React.step]
    split
    · rename_i s1 h1
      exact react_sendCommand_status s s1 action params h1
    · rfl
  | color hex =>
    simp only [React.step]
    split
    · rename_i s1 h1
      exact react_sendCommand_status { s with color := hex } s1 _ _ h1
    · rfl
  | url u => rfl
  | layout cw ch => rfl
  | resize =>
    simp only [React.step, React.handleResize]
    split <;> rfl

theorem vanilla_step_status_cases (B : Browser) (s : Vanilla.State) (e : Vanilla.Event) :
    (Vanilla.step B s e).statusText = s.statusText ∨
      (Vanilla.step B s e).statusText ∈ statusLabels := by
  by_cases h : ∀ i, e ≠ Vanilla.Event.open i ∧ e ≠ Vanilla.Event.close i ∧ e ≠ Vanilla.Event.error i
  · exact Or.inl (vanilla_step_other_status B s e h)
  · cases e with
    | «open» i =>
      simp only [Vanilla.step]
      split
      · split_ifs
        · right; simp [Vanilla.onOpen, Vanilla.setStatus, statusLabels]
        · left; rfl
      · left; rfl
    | close i =>
      simp only [Vanilla.step]
      split
      · split_ifs
        · right; simp [Vanilla.onClose, Vanilla.setStatus, statusLabels]
        · left; rfl
      · left; rfl
    | error i =>
      simp only [Vanilla.step]
      split
      · right
        simp only [Vanilla.onError, Vanilla.setStatus]
        split <;> simp [statusLabels]
      · left; rfl
    | _ => exact absurd (fun i => ⟨by simp, by simp, by simp⟩) h

theorem react_step_status_cases (B : Browser) (s : React.State) (e : React.Event) :
    (React.step B s e).status = s.status ∨ (React.step B s e).status ∈ statusLabels := by
  by_cases h : ∀ i, e ≠ React.Event.open i ∧ e ≠ React.Event.close i ∧ e ≠ React.Event.error i
  · exact Or.inl (react_step_other_status B s e h)
  · cases e with
    | «open» i =>
      simp only [React.step]
      split
      · split_ifs
        · right; simp [React.onOpen, statusLabels]
        · left; rfl
      · left; rfl
    | close i =>
      simp only [React.step]
      split
      · split_ifs
        · right; simp [React.onClose, statusLabels]
        · left; rfl
      · left; rfl
    | error i =>
      simp only [React.step]
      split
      · right; simp [React.onError, statusLabels]
      · left; rfl
    | _ => exact absurd (fun i => ⟨by simp, by simp, by simp⟩) h

theorem vanilla_run_status (B : Browser) (events : List Vanilla.Event) (s : Vanilla.State)
    (h : s.statusText ∈ statusLabels) : (Vanilla.run B s events).statusText ∈ statusLabels := by
  induction events generalizing s with
  | nil => exact h
  | cons e rest ih =>
    apply ih
    rcases vanilla_step_status_cases B s e with h1 | h1
    · rw [h1]; exact h
    · exact h1

theorem react_run_status (B : Browser) (events : List React.Event) (s : React.State)
    (h : s.status ∈ statusLabels) : (React.run B s events).status ∈ statusLabels := by
  induction events generalizing s with
  | nil => exact h
  | cons e rest ih =>
    apply ih
    rcases react_step_status_cases B s e with h1 | h1
    · rw [h1]; exact h
    · exact h1

/-- C7: in both clients the status label starts as `Disconnected` and is one of
`Connected`, `Disconnected`, `Error` after every sequence of events; an open
event of a connecting socket makes it `Connected`, a close event of a socket
not yet closed makes it `Disconnected`, an error event makes it `Error`; and
every other event, as well as `handleMessage` (whether it returns or throws), the
message handler (malformed text included) and `sendCommand` on their own, leaves
it as it was. -/
theorem status_label (B : Browser) :
    ((∀ page, (Vanilla.start page).statusText = "Disconnected") ∧
      (∀ page events, (Vanilla.run B (Vanilla.start page) events).statusText ∈ statusLabels) ∧
      (∀ (s : Vanilla.State) i k, s.sockets[i]? = some k → k.readyState = ReadyState.CONNECTING →
        (Vanilla.step B s (Vanilla.Event.open i)).statusText = "Connected") ∧
      (∀ (s : Vanilla.State) i k, s.sockets[i]? = some k → k.readyState ≠ ReadyState.CLOSED →
        (Vanilla.step B s (Vanilla.Event.close i)).statusText = "Disconnected") ∧
      (∀ (s : Vanilla.State) i k, s.sockets[i]? = some k →
        (Vanilla.step B s (Vanilla.Event.error i)).statusText = "Error") ∧
      (∀ (s : Vanilla.State) e,
        (∀ i, e ≠ Vanilla.Event.open i ∧ e ≠ Vanilla.Event.close i ∧ e ≠ Vanilla.Event.error i) →
        (Vanilla.step B s e).statusText = s.statusText) ∧
      (∀ (s : Vanilla.State) msg now,
        (Vanilla.handleMessage s msg now).state.statusText = s.statusText) ∧
      (∀ (s : Vanilla.State) data now, (Vanilla.onMessage B s data now).statusText = s.statusText) ∧
      (∀ (s s1 : Vanilla.State) action params,
        Vanilla.sendCommand s action params = Except.ok s1 → s1.statusText = s.statusText)) ∧
    ((∀ cw ch now, (React.start cw ch now).status = "Disconnected") ∧
      (∀ cw ch now events,
        (React.run B (React.start cw ch now) events).status ∈ statusLabels) ∧
      (∀ (s : React.State) i k, s.sockets[i]? = some k → k.readyState = ReadyState.CONNECTING →
        (React.step B s (React.Event.open i)).status = "Connected") ∧
      (∀ (s : React.State) i k, s.sockets[i]? = some k → k.readyState ≠ ReadyState.CLOSED →
        (React.step B s (React.Event.close i)).status = "Disconnected") ∧
      (∀ (s : React.State) i k, s.sockets[i]? = some k →
        (React.step B s (React.Event.error i)).status = "Error") ∧
      (∀ (s : React.State) e,
        (∀ i, e ≠ React.Event.open i ∧ e ≠ React.Event.close i ∧ e ≠ React.Event.error i) →
        (React.step B s e).status = s.status) ∧
      (∀ (s : React.State) msg now, (React.handleMessage s msg now).state.status = s.status) ∧
      (∀ (s : React.State) data now, (React.onMessage B s data now).status = s.status) ∧
      (∀ (s s1 : React.State) action params,
        React.sendCommand s action params = Except.ok s1 → s1.status = s.status)) := by
  refine ⟨⟨fun _ => rfl, ?_, ?_, ?_, ?_, vanilla_step_other_status B,
      vanilla_handleMessage_status, vanilla_onMessage_status B, vanilla_sendCommand_status⟩,
    ⟨fun _ _ _ => rfl, ?_, ?_, ?_, ?_, react_step_other_status B,
      react_handleMessage_status, react_onMessage_status B, react_sendCommand_status⟩⟩
  · intro page events
    exact vanilla_run_status B events _ (by simp [Vanilla.start, Vanilla.setStatus, statusLabels])
  · intro s i k hk hc
    simp [Vanilla.step, hk, hc, Vanilla.onOpen, Vanilla.setStatus]
  · intro s i k hk hc
    simp [Vanilla.step, hk, hc, Vanilla.onClose, Vanilla.setStatus]
  · intro s i k hk
    simp only [Vanilla.step, hk, Vanilla.onError, Vanilla.setStatus]
    split <;> rfl
  · intro cw ch now events
    exact react_run_status B events _ (by simp [React.start, statusLabels])
  · intro s i k hk hc
    simp [React.step, hk, hc, React.onOpen]
  · intro s i k hk hc
    simp [React.step, hk, hc, React.onClose]
  · intro s i k hk
    simp [React.step, hk, React.onError]

/-- C7 on the example page and component: the label after the socket opens, after
it then closes, after an error, and after a command. -/
theorem status_label_witness :
    (Vanilla.exampleConnecting.sockets[0]? = some (Socket.create "ws://localhost:8000/ws") ∧
      (Vanilla.step exampleBrowser Vanilla.exampleConnecting (Vanilla.Event.open 0)).statusText =
        "Connected" ∧
      (Vanilla.step exampleBrowser Vanilla.exampleConnecting (Vanilla.Event.close 0)).statusText =
        "Disconnected" ∧
      (Vanilla.step exampleBrowser Vanilla.exampleConnecting (Vanilla.Event.error 0)).statusText =
        "Error" ∧
      (Vanilla.step exampleBrowser Vanilla.exampleOpen
        (Vanilla.Event.command "undo" none)).statusText = "Connected") ∧
    (React.exampleConnecting.sockets[0]? = some (Socket.create "ws://localhost:8000/ws") ∧
      (React.step exampleBrowser React.exampleConnecting (React.Event.open 0)).status =
        "Connected" ∧
      (React.step exampleBrowser React.exampleConnecting (React.Event.close 0)).status =
        "Disconnected" ∧
      (React.step exampleBrowser React.exampleConnecting (React.Event.error 0)).status =
        "Error" ∧
      (React.step exampleBrowser React.exampleOpen
        (React.Event.command "undo" none)).status = "Connected") := by
  have h := status_label exampleBrowser
  refine ⟨⟨by decide, ?_, ?_, ?_, ?_⟩, ⟨by decide, ?_, ?_, ?_, ?_⟩⟩
  · exact h.1.2.2.1 _ 0 (Socket.create "ws://localhost:8000/ws") (by decide) rfl
  · exact h.1.2.2.2.1 _ 0 (Socket.create "ws://localhost:8000/ws") (by decide) (by decide)
  · exact h.1.2.2.2.2.1 _ 0 (Socket.create "ws://localhost:8000/ws") (by decide)
  · rw [h.1.2.2.2.2.2.1 Vanilla.exampleOpen (Vanilla.Event.command "undo" none)
      (fun i => ⟨by simp, by simp, by simp⟩)]
    decide
  · exact h.2.2.2.1 _ 0 (Socket.create "ws://localhost:8000/ws") (by decide) rfl
  · exact h.2.2.2.2.1 _ 0 (Socket.create "ws://localhost:8000/ws") (by decide) (by decide)
  · exact h.2.2.2.2.2.1 _ 0 (Socket.create "ws://localhost:8000/ws") (by decide)
  · rw [h.2.2.2.2.2.2.1 React.exampleOpen (React.Event.command "undo" none)
      (fun i => ⟨by simp, by simp, by simp⟩)]
    decide

/-! ## `handleMessage` of the React client -/

theorem drawEach_outcome (body : Canvas → String × ℚ × ℚ → Canvas)
    (landmarks : List (String × LandmarkValue)) (c : Canvas) :
    (destructurable landmarks = true → ∃ c1, drawEach body c landmarks = Outcome.returned c1) ∧
      (destructurable landmarks = false → ∃ c1, drawEach body c landmarks = Outcome.threw c1) := by
  induction landmarks generalizing c with
  | nil => exact ⟨fun _ => ⟨c, rfl⟩, fun h => by simp [destructurable] at h⟩
  | cons lm rest ih =>
    obtain ⟨k, v⟩ := lm
    cases v with
    | point x y =>
      have e : destructurable ((k, LandmarkValue.point x y) :: rest) = destructurable rest := by
        simp [destructurable]
      rw [e]
      simp only [drawEach]
      exact ih _
    | notIterable =>
      refine ⟨fun h => by simp [destructurable] at h, fun _ => ⟨c, rfl⟩⟩

theorem react_handleMessage_state_eq (s : React.State) (msg : Msg) (now : ℚ)
    (h : msg.type = some "state") :
    ∃ img gest, React.handleMessage s msg now =
      Outcome.returned { s with
        tool := if truthyStr msg.tool then msg.tool.getD "" else "pen"
        pageInfo :=
          { current := (if truthyNum msg.page_index then msg.page_index.getD 0 else 0) + 1
            total := if truthyNum msg.total_pages then msg.total_pages.getD 0 else 1 }
        frameImg := img
        gestures := gest } := by
  have hf : msg.type ≠ some "frame" := by rw [h]; decide
  simp only [React.handleMessage, if_neg hf, if_pos h, Outcome.andThen]
  cases s.frameImg <;> cases truthyStr msg.canvas <;> cases msg.gestures <;>
    exact ⟨_, _, rfl⟩

theorem react_handleMessage_frame_eq (s : React.State) (msg : Msg) (now : ℚ)
    (h : msg.type = some "frame") :
    (∃ cv fp, React.handleMessage s msg now =
        Outcome.returned { s with
          canvas := cv, fps := fp, lastFrameTime := now,
          gestures := msg.gestures.getD s.gestures }) ∨
      (∃ cv, React.handleMessage s msg now = Outcome.threw { s with canvas := cv }) := by
  simp only [React.handleMessage, if_pos h]
  cases hl : msg.landmarks with
  | none =>
    left
    cases s.canvas <;> cases msg.gestures <;> exact ⟨_, _, rfl⟩
  | some l =>
    simp only [React.drawLandmarks]
    cases hc : s.canvas with
    | none =>
      left
      cases msg.gestures <;> exact ⟨_, _, rfl⟩
    | some canvas =>
      simp only []
      cases hd : drawEach
          (React.drawMarker ((canvas.width : ℚ) / 850) ((canvas.height : ℚ) / 550))
          { canvas.clear with
            fillStyle := "rgba(124, 58, 237, 0.9)"
            strokeStyle := "rgba(167, 139, 250, 0.6)"
            lineWidth := 2 } l with
      | returned c1 =>
        left
        cases msg.gestures <;> exact ⟨_, _, rfl⟩
      | threw c1 =>
        right
        exact ⟨_, rfl⟩

theorem react_handleMessage_returns (s : React.State) (msg : Msg) (now : ℚ)
    (h : msg.type = some "frame" → s.canvas ≠ none →
      ∀ l, msg.landmarks = some l → destructurable l = true) :
    ∃ s1, React.handleMessage s msg now = Outcome.returned s1 := by
  by_cases hf : msg.type = some "frame"
  · simp only [React.handleMessage, if_pos hf]
    cases hl : msg.landmarks with
    | none => cases s.canvas <;> exact ⟨_, rfl⟩
    | some l =>
      simp only [React.drawLandmarks]
      cases hc : s.canvas with
      | none => exact ⟨_, rfl⟩
      | some canvas =>
        have hd := h hf (by rw [hc]; exact Option.some_ne_none _) l hl
        obtain ⟨c1, e⟩ := (drawEach_outcome
          (React.drawMarker ((canvas.width : ℚ) / 850) ((canvas.height : ℚ) / 550)) l
          { canvas.clear with
            fillStyle := "rgba(124, 58, 237, 0.9)"
            strokeStyle := "rgba(167, 139, 250, 0.6)"
            lineWidth := 2 }).1 hd
        simp only []
        rw [e]
        exact ⟨_, rfl⟩
  · by_cases hs : msg.type = some "state"
    · obtain ⟨img, gest, e⟩ := react_handleMessage_state_eq s msg now hs
      exact ⟨_, e⟩
    · simp only [React.handleMessage, if_neg hf, if_neg hs]
      exact ⟨_, rfl⟩

theorem react_handleMessage_gestures (s s1 : React.State) (msg : Msg) (now : ℚ)
    (h : React.handleMessage s msg now = Outcome.returned s1) :
    s1.gestures = msg.gestures.getD s.gestures := by
  by_cases hf : msg.type = some "frame"
  · rcases react_handleMessage_frame_eq s msg now hf with ⟨cv, fp, e⟩ | ⟨cv, e⟩
    · rw [e] at h
      cases h
      rfl
    · rw [e] at h
      cases h
  · by_cases hs : msg.type = some "state"
    · simp only [React.handleMessage, if_neg hf, if_pos hs, Outcome.andThen] at h
      cases h
      cases s.frameImg <;> cases truthyStr msg.canvas <;> cases msg.gestures <;> rfl
    · simp only [React.handleMessage, if_neg hf, if_neg hs, Outcome.andThen] at h
      cases h
      cases msg.gestures <;> rfl

/-- C8: for a `state` message, `handleMessage` of the React client sets the page
info to `current = page_index + 1` and `total = total_pages` and the tool to the
tool of the message, a missing `page_index` counting as 0 (as does 0 itself), a
missing or zero `total_pages` as 1 and a missing or empty `tool` as `pen`; so a
`page_index` that is not negative gives a current page of at least 1; and the
call returns normally. -/
theorem react_handleMessage_state (s : React.State) (msg : Msg) (now : ℚ)
    (h : msg.type = some "state") :
    (React.handleMessage s msg now).state.pageInfo.current =
        (match msg.page_index with
          | some p => p + 1
          | none => 1) ∧
      (React.handleMessage s msg now).state.pageInfo.total =
        (match msg.total_pages with
          | some t => if t = 0 then 1 else t
          | none => 1) ∧
      (React.handleMessage s msg now).state.tool =
        (match msg.tool with
          | some t => if t = "" then "pen" else t
          | none => "pen") ∧
      (∀ p, msg.page_index = some p → 0 ≤ p →
        1 ≤ (React.handleMessage s msg now).state.pageInfo.current) ∧
      (∃ s1, React.handleMessage s msg now = Outcome.returned s1) := by
  obtain ⟨img, gest, e⟩ := react_handleMessage_state_eq s msg now h
  rw [e]
  simp only [Outcome.state]
  refine ⟨?_, ?_, ?_, ?_, ⟨_, rfl⟩⟩
  · cases hp : msg.page_index with
    | none => simp [truthyNum]
    | some p => by_cases hz : p = 0 <;> simp [truthyNum, hz]
  · cases ht : msg.total_pages with
    | none => simp [truthyNum]
    | some t => by_cases hz : t = 0 <;> simp [truthyNum, hz]
  · cases ht : msg.tool with
    | none => simp [truthyStr]
    | some t => by_cases hz : t = "" <;> simp [truthyStr, hz]
  · intro p hp h0
    by_cases hz : p = 0
    · simp [hp, truthyNum, hz]
    · simp only [hp, truthyNum, ne_eq, hz, not_false_eq_true, decide_True, if_true, Option.getD_some]
      omega

/-- C8 on a `state` message with `page_index` 2, `total_pages` 0 and an empty
`tool`: the page info becomes 3 of 1 and the tool `pen`. -/
theorem react_handleMessage_state_witness :
    (React.handleMessage (React.start 1700 1100 0)
        { type := some "state", page_index := some 2, total_pages := some 0, tool := some "" }
        16).state.pageInfo.current = 3 ∧
      (React.handleMessage (React.start 1700 1100 0)
        { type := some "state", page_index := some 2, total_pages := some 0, tool := some "" }
        16).state.pageInfo.total = 1 ∧
      (React.handleMessage (React.start 1700 1100 0)
        { type := some "state", page_index := some 2, total_pages := some 0, tool := some "" }
        16).state.tool = "pen" ∧
      1 ≤ (React.handleMessage (React.start 1700 1100 0)
        { type := some "state", page_index := some 2, total_pages := some 0, tool := some "" }
        16).state.pageInfo.current :=
  ⟨(react_handleMessage_state (React.start 1700 1100 0)
      { type := some "state", page_index := some 2, total_pages := some 0, tool := some "" }
      16 rfl).1,
    (react_handleMessage_state (React.start 1700 1100 0)
      { type := some "state", page_index := some 2, total_pages := some 0, tool := some "" }
      16 rfl).2.1,
    (react_handleMessage_state (React.start 1700 1100 0)
      { type := some "state", page_index := some 2, total_pages := some 0, tool := some "" }
      16 rfl).2.2.1,
    (react_handleMessage_state (React.start 1700 1100 0)
      { type := some "state", page_index := some 2, total_pages := some 0, tool := some "" }
      16 rfl).2.2.2.1 2 rfl (by decide)⟩

/-- C9 as stated fails: on a `frame` message whose landmark `a` has the value 1,
which cannot be destructured as `[x, y]`, `drawLandmarks` throws once the canvas
is cleared, so `handleMessage` throws before it reaches the gestures: the message
carries the gestures `pinch`, and the gestures of the component stay `fist`,
also after the message handler has caught the exception. -/
theorem react_handleMessage_gestures_skipped :
    (React.handleMessage { React.start 1700 1100 0 with gestures := ["fist"] }
        { type := some "frame", landmarks := some [("a", LandmarkValue.notIterable)],
          gestures := some ["pinch"] } 16) =
      Outcome.threw
        { React.start 1700 1100 0 with
          gestures := ["fist"]
          canvas := some (
            { width := 850
              height := 550
              fillStyle := "rgba(124, 58, 237, 0.9)"
              strokeStyle := "rgba(167, 139, 250, 0.6)"
              lineWidth := 2 } : Canvas) } ∧
      (React.handleMessage { React.start 1700 1100 0 with gestures := ["fist"] }
        { type := some "frame", landmarks := some [("a", LandmarkValue.notIterable)],
          gestures := some ["pinch"] } 16).state.gestures ≠ ["pinch"] ∧
      exampleBrowser.parse
          "\x7b\"type\":\"frame\",\"landmarks\":\x7b\"a\":1\x7d,\"gestures\":[\"pinch\"]\x7d" =
        some
          { type := some "frame", landmarks := some [("a", LandmarkValue.notIterable)],
            gestures := some ["pinch"] } ∧
      (React.step exampleBrowser { React.exampleOpen with gestures := ["fist"] }
        (React.Event.message 0
          "\x7b\"type\":\"frame\",\"landmarks\":\x7b\"a\":1\x7d,\"gestures\":[\"pinch\"]\x7d"
          16)).gestures = ["fist"] := by
  refine ⟨?_, ?_, by decide, by decide⟩
  · simp [React.handleMessage, React.drawLandmarks, React.start, drawEach, Outcome.map,
      Outcome.andThen, Canvas.clear]
  · decide

/-- C9, amended: `handleMessage` of the React client dispatches on `type` alone:
a `frame` message leaves the tool, the page info and the whiteboard image as
they were, whether it returns or throws; a `state` message leaves the overlay
canvas, the fps and the frame clock as they were; a message of any other type
leaves all of these as they were, and indeed changes at most the gestures; and
whenever `handleMessage` returns normally, the gestures become `msg.gestures`
when the message carries that field and stay as they were when it does not.  It
returns normally on every message except a `frame` message with a landmark
value that cannot be destructured as `[x, y]`, handled while the canvas is
mounted. -/
theorem react_handleMessage_dispatch (s : React.State) (msg : Msg) (now : ℚ) :
    (msg.type = some "frame" →
        (React.handleMessage s msg now).state.tool = s.tool ∧
        (React.handleMessage s msg now).state.pageInfo = s.pageInfo ∧
        (React.handleMessage s msg now).state.frameImg = s.frameImg) ∧
      (msg.type = some "state" →
        (React.handleMessage s msg now).state.canvas = s.canvas ∧
        (React.handleMessage s msg now).state.fps = s.fps ∧
        (React.handleMessage s msg now).state.lastFrameTime = s.lastFrameTime) ∧
      (msg.type ≠ some "frame" → msg.type ≠ some "state" →
        React.handleMessage s msg now =
          Outcome.returned { s with gestures := msg.gestures.getD s.gestures }) ∧
      (∀ s1, React.handleMessage s msg now = Outcome.returned s1 →
        (∀ g, msg.gestures = some g → s1.gestures = g) ∧
        (msg.gestures = none → s1.gestures = s.gestures)) ∧
      ((msg.type = some "frame" → s.canvas ≠ none →
          ∀ l, msg.landmarks = some l → destructurable l = true) →
        ∃ s1, React.handleMessage s msg now = Outcome.returned s1) := by
  refine ⟨?_, ?_, ?_, ?_, react_handleMessage_returns s msg now⟩
  · intro h
    rcases react_handleMessage_frame_eq s msg now h with ⟨cv, fp, e⟩ | ⟨cv, e⟩ <;>
      rw [e] <;> exact ⟨rfl, rfl, rfl⟩
  · intro h
    obtain ⟨img, gest, e⟩ := react_handleMessage_state_eq s msg now h
    rw [e]
    exact ⟨rfl, rfl, rfl⟩
  · intro hf hs
    simp only [React.handleMessage, if_neg hf, if_neg hs, Outcome.andThen]
    cases msg.gestures <;> rfl
  · intro s1 h1
    have hg := react_handleMessage_gestures s s1 msg now h1
    refine ⟨fun g hg1 => ?_, fun hg1 => ?_⟩
    · rw [hg, hg1]
      rfl
    · rw [hg, hg1]
      rfl

/-- C9, amended, on the component with a tool and gestures set: a `frame` message
with a well-formed landmark and gestures keeps the tool, returns and replaces
the gestures; a `state` message without gestures keeps the overlay and the
gestures; a message of another type changes nothing. -/
theorem react_handleMessage_dispatch_witness :
    ((React.handleMessage { React.start 1700 1100 0 with tool := "eraser", gestures := ["fist"] }
        { type := some "frame", landmarks := some (points [("index", 425, 275)]),
          gestures := some ["pinch"] }
        16).state.tool = "eraser" ∧
      ∃ s1, React.handleMessage
          { React.start 1700 1100 0 with tool := "eraser", gestures := ["fist"] }
          { type := some "frame", landmarks := some (points [("index", 425, 275)]),
            gestures := some ["pinch"] } 16 = Outcome.returned s1 ∧
        s1.gestures = ["pinch"]) ∧
    ((React.handleMessage { React.start 1700 1100 0 with tool := "eraser", gestures := ["fist"] }
        { type := some "state", tool := some "pen" } 16).state.canvas =
          some { width := 850, height := 550 } ∧
      ∃ s1, React.handleMessage
          { React.start 1700 1100 0 with tool := "eraser", gestures := ["fist"] }
          { type := some "state", tool := some "pen" } 16 = Outcome.returned s1 ∧
        s1.gestures = ["fist"]) ∧
    React.handleMessage { React.start 1700 1100 0 with tool := "eraser", gestures := ["fist"] }
        { type := some "ping" } 16 =
      Outcome.returned { React.start 1700 1100 0 with tool := "eraser", gestures := ["fist"] } := by
  have hframe := react_handleMessage_dispatch
    { React.start 1700 1100 0 with tool := "eraser", gestures := ["fist"] }
    { type := some "frame", landmarks := some (points [("index", 425, 275)]),
      gestures := some ["pinch"] } 16
  have hstate := react_handleMessage_dispatch
    { React.start 1700 1100 0 with tool := "eraser", gestures := ["fist"] }
    { type := some "state", tool := some "pen" } 16
  have hother := react_handleMessage_dispatch
    { React.start 1700 1100 0 with tool := "eraser", gestures := ["fist"] }
    { type := some "ping" } 16
  refine ⟨⟨(hframe.1 rfl).1, ?_⟩, ⟨(hstate.2.1 rfl).1, ?_⟩, hother.2.2.1 (by decide) (by decide)⟩
  · obtain ⟨s1, e⟩ := hframe.2.2.2.2 (fun _ _ l hl => by cases hl; decide)
    exact ⟨s1, e, (hframe.2.2.2.1 s1 e).1 ["pinch"] rfl⟩
  · obtain ⟨s1, e⟩ := hstate.2.2.2.2 (fun h => absurd h (by decide))
    exact ⟨s1, e, (hstate.2.2.2.1 s1 e).2 rfl⟩

/-! ## Connections -/

/-- C4, the code on two clicks on Connect before the first socket has opened:
both clients then hold two sockets in `CONNECTING`.  In the browser page,
moreover, a click while the socket is open closes it, and the close event of
that socket starts a reconnection next to the socket the click created: two
sockets are `OPEN` at the end. -/
theorem two_live_sockets :
    Vanilla.liveSockets (Vanilla.run exampleBrowser (Vanilla.start Vanilla.examplePage)
        [Vanilla.Event.click, Vanilla.Event.click]) = 2 ∧
      React.liveSockets (React.run exampleBrowser (React.start 1700 1100 0)
        [React.Event.click, React.Event.click]) = 2 ∧
      (Vanilla.run exampleBrowser (Vanilla.start Vanilla.examplePage)
        [Vanilla.Event.click, Vanilla.Event.open 0, Vanilla.Event.click, Vanilla.Event.open 1,
          Vanilla.Event.close 0, Vanilla.Event.timer, Vanilla.Event.open 2]).sockets.map
          Socket.readyState =
        [ReadyState.CLOSED, ReadyState.OPEN, ReadyState.OPEN] := by
  refine ⟨by decide, by decide, by decide⟩

theorem vanilla_retry_round (B : Browser) (url : String) (hurl : B.validUrl url = true)
    (n : Nat) (s : Vanilla.State) (hlen : s.sockets.length = n + 1) (ht : s.timers = [])
    (hu : s.wsUrl = url)
    (hclosed : ∀ j, j < n → (s.sockets[j]?).map Socket.readyState = some ReadyState.CLOSED)
    (hlast : s.sockets[n]? = some (Socket.create url)) :
    ∀ s2, s2 = Vanilla.run B s [Vanilla.Event.close n, Vanilla.Event.timer] →
    s2.sockets.length = n + 2 ∧ s2.timers = [] ∧ s2.wsUrl = url ∧
      (∀ j, j < n + 1 → (s2.sockets[j]?).map Socket.readyState = some ReadyState.CLOSED) ∧
      s2.sockets[n + 1]? = some (Socket.create url) := by
  have e : Vanilla.run B s [Vanilla.Event.close n, Vanilla.Event.timer] =
      { s with
        statusText := "Disconnected"
        statusBackground := "#ffefef"
        statusColor := "#900"
        timers := []
        sockets := updateAt s.sockets n (fun k => { k with readyState := ReadyState.CLOSED }) ++
          [Socket.create url]
        ws := some (n + 1) } := by
    simp [Vanilla.run, Vanilla.step, hlast, Socket.create, Vanilla.onClose, Vanilla.setStatus, ht,
      Vanilla.connect, hu, hurl, updateAt_length, hlen]
  intro s2 hs2
  rw [e] at hs2
  subst hs2
  have hl : (updateAt s.sockets n fun k => { k with readyState := ReadyState.CLOSED }).length =
      n + 1 := by rw [updateAt_length, hlen]
  refine ⟨by simp [hl], rfl, hu, ?_, ?_⟩
  · intro j hj
    rw [List.getElem?_append_left (by omega)]
    by_cases hjn : j = n
    · subst hjn
      rw [getElem?_updateAt_self, hlast]
      rfl
    · rw [getElem?_updateAt_ne _ _ _ _ hjn]
      exact hclosed j (by omega)
  · rw [List.getElem?_append_right (by omega)]
    simp [hl]

theorem vanilla_run_append (B : Browser) (s : Vanilla.State) (a b : List Vanilla.Event) :
    Vanilla.run B s (a ++ b) = Vanilla.run B (Vanilla.run B s a) b := by
  simp [Vanilla.run, List.foldl_append]

theorem vanilla_retry_rounds (B : Browser) (page : Vanilla.State)
    (hurl : B.validUrl page.wsUrl = true) (n : Nat) :
    (Vanilla.run B (Vanilla.start page)
        (Vanilla.Event.click :: Vanilla.closeAndRetry n)).sockets.length = n + 1 ∧
      (Vanilla.run B (Vanilla.start page)
        (Vanilla.Event.click :: Vanilla.closeAndRetry n)).timers = [] ∧
      (Vanilla.run B (Vanilla.start page)
        (Vanilla.Event.click :: Vanilla.closeAndRetry n)).wsUrl = page.wsUrl ∧
      (∀ j, j < n → ((Vanilla.run B (Vanilla.start page)
        (Vanilla.Event.click :: Vanilla.closeAndRetry n)).sockets[j]?).map Socket.readyState =
          some ReadyState.CLOSED) ∧
      (Vanilla.run B (Vanilla.start page)
        (Vanilla.Event.click :: Vanilla.closeAndRetry n)).sockets[n]? =
          some (Socket.create page.wsUrl) := by
  induction n with
  | zero =>
    simp [Vanilla.closeAndRetry, Vanilla.run, Vanilla.step, Vanilla.clickConnect, Vanilla.start,
      Vanilla.setStatus, Vanilla.connect, hurl]
  | succ n ih =>
    obtain ⟨h1, h2, h3, h4, h5⟩ := ih
    have hr := vanilla_retry_round B page.wsUrl hurl n _ h1 h2 h3 h4 h5 _ rfl
    have e : Vanilla.Event.click :: Vanilla.closeAndRetry (n + 1) =
        (Vanilla.Event.click :: Vanilla.closeAndRetry n) ++
          [Vanilla.Event.close n, Vanilla.Event.timer] := by
      simp [Vanilla.closeAndRetry]
    rw [e, vanilla_run_append]
    exact hr

theorem react_retry_round (B : Browser) (url : String) (hurl : B.validUrl url = true)
    (n : Nat) (s : React.State) (hlen : s.sockets.length = n + 1) (ht : s.timers = [])
    (hw : s.wsRef = some n)
    (hclosed : ∀ j, j < n → (s.sockets[j]?).map Socket.readyState = some ReadyState.CLOSED)
    (hlast : s.sockets[n]? = some (Socket.create url)) :
    ∀ s2, s2 = React.run B s [React.Event.close n, React.Event.timer] →
    s2.sockets.length = n + 2 ∧ s2.timers = [] ∧ s2.wsRef = some (n + 1) ∧
      (∀ j, j < n + 1 → (s2.sockets[j]?).map Socket.readyState = some ReadyState.CLOSED) ∧
      s2.sockets[n + 1]? = some (Socket.create url) := by
  have hget : (updateAt s.sockets n fun k => { k with readyState := ReadyState.CLOSED })[n]? =
      some { url := url, readyState := ReadyState.CLOSED, sent := [] } := by
    rw [getElem?_updateAt_self, hlast]
    rfl
  have e1 : React.step B s (React.Event.close n) =
      { s with
        isConnected := false
        status := "Disconnected"
        timers := [{ delay := 1500, url := url }]
        sockets := updateAt s.sockets n (fun k => { k with readyState := ReadyState.CLOSED }) } := by
    simp only [React.step, hlast, Socket.create, React.onClose, ht, hget, ne_eq, reduceCtorEq,
      not_false_eq_true, if_true, Option.map_some', Option.getD_some, List.nil_append]
  have e2 : React.step B
      { s with
        isConnected := false
        status := "Disconnected"
        timers := [{ delay := 1500, url := url }]
        sockets := updateAt s.sockets n (fun k => { k with readyState := ReadyState.CLOSED }) }
      React.Event.timer =
      { s with
        isConnected := false
        status := "Disconnected"
        timers := []
        sockets := updateAt s.sockets n (fun k => { k with readyState := ReadyState.CLOSED }) ++
          [Socket.create url]
        wsRef := some (n + 1) } := by
    simp only [React.step, React.connect, hw, hget, hurl, if_true, reduceCtorEq, if_false,
      updateAt_length, hlen]
  have e : React.run B s [React.Event.close n, React.Event.timer] =
      { s with
        isConnected := false
        status := "Disconnected"
        timers := []
        sockets := updateAt s.sockets n (fun k => { k with readyState := ReadyState.CLOSED }) ++
          [Socket.create url]
        wsRef := some (n + 1) } := by
    simp only [React.run, List.foldl, e1, e2]
  intro s2 hs2
  rw [e] at hs2
  subst hs2
  have hl : (updateAt s.sockets n fun k => { k with readyState := ReadyState.CLOSED }).length =
      n + 1 := by rw [updateAt_length, hlen]
  refine ⟨by simp [hl], rfl, rfl, ?_, ?_⟩
  · intro j hj
    rw [List.getElem?_append_left (by omega)]
    by_cases hjn : j = n
    · subst hjn
      rw [getElem?_updateAt_self, hlast]
      rfl
    · rw [getElem?_updateAt_ne _ _ _ _ hjn]
      exact hclosed j (by omega)
  · rw [List.getElem?_append_right (by omega)]
    simp [hl]

theorem react_run_append (B : Browser) (s : React.State) (a b : List React.Event) :
    React.run B s (a ++ b) = React.run B (React.run B s a) b := by
  simp [React.run, List.foldl_append]

theorem react_retry_rounds (B : Browser) (cw ch : Nat) (now : ℚ)
    (hurl : B.validUrl "ws://localhost:8000/ws" = true) (n : Nat) :
    (React.run B (React.start cw ch now)
        (React.Event.click :: React.closeAndRetry n)).sockets.length = n + 1 ∧
      (React.run B (React.start cw ch now)
        (React.Event.click :: React.closeAndRetry n)).timers = [] ∧
      (React.run B (React.start cw ch now)
        (React.Event.click :: React.closeAndRetry n)).wsRef = some n ∧
      (∀ j, j < n → ((React.run B (React.start cw ch now)
        (React.Event.click :: React.closeAndRetry n)).sockets[j]?).map Socket.readyState =
          some ReadyState.CLOSED) ∧
      (React.run B (React.start cw ch now)
        (React.Event.click :: React.closeAndRetry n)).sockets[n]? =
          some (Socket.create "ws://localhost:8000/ws") := by
  induction n with
  | zero =>
    simp [React.closeAndRetry, React.run, React.step, React.start, React.connect, hurl]
  | succ n ih =>
    obtain ⟨h1, h2, h3, h4, h5⟩ := ih
    have hr := react_retry_round B _ hurl n _ h1 h2 h3 h4 h5 _ rfl
    have e : React.Event.click :: React.closeAndRetry (n + 1) =
        (React.Event.click :: React.closeAndRetry n) ++
          [React.Event.close n, React.Event.timer] := by
      simp [React.closeAndRetry]
    rw [e, react_run_append]
    exact hr

/-- C5: in both clients the close event of a socket not yet closed runs the close
handler, which appends exactly one timer of 1500 ms to the pending ones,
whatever the state; that timer firing calls `connect`, which creates exactly one
socket when the browser accepts the URL; and so, after a click on Connect, a run
in which each of the first `n` sockets closes and its timer fires holds `n + 1`
sockets, the first `n` closed and the last one connecting. -/
theorem reconnect_after_close (B : Browser) (n : Nat) :
    ((∀ s : Vanilla.State, (Vanilla.onClose s).timers = s.timers ++ [1500]) ∧
      (∀ (s : Vanilla.State) i k, s.sockets[i]? = some k → k.readyState ≠ ReadyState.CLOSED →
        (Vanilla.step B s (Vanilla.Event.close i)).timers = s.timers ++ [1500]) ∧
      (∀ (s : Vanilla.State) d rest, s.timers = d :: rest →
        Vanilla.step B s Vanilla.Event.timer = Vanilla.connect B { s with timers := rest }) ∧
      (∀ s : Vanilla.State, B.validUrl s.wsUrl = true →
        (Vanilla.connect B s).sockets = s.sockets ++ [Socket.create s.wsUrl] ∧
        (Vanilla.connect B s).timers = s.timers) ∧
      (∀ page : Vanilla.State, B.validUrl page.wsUrl = true →
        (Vanilla.run B (Vanilla.start page)
          (Vanilla.Event.click :: Vanilla.closeAndRetry n)).sockets.length = n + 1 ∧
        (∀ j, j < n → ((Vanilla.run B (Vanilla.start page)
          (Vanilla.Event.click :: Vanilla.closeAndRetry n)).sockets[j]?).map Socket.readyState =
            some ReadyState.CLOSED) ∧
        ((Vanilla.run B (Vanilla.start page)
          (Vanilla.Event.click :: Vanilla.closeAndRetry n)).sockets[n]?).map Socket.readyState =
            some ReadyState.CONNECTING)) ∧
    ((∀ (s : React.State) i, ∃ u,
        (React.onClose s i).timers = s.timers ++ [{ delay := 1500, url := u }]) ∧
      (∀ (s : React.State) i k, s.sockets[i]? = some k → k.readyState ≠ ReadyState.CLOSED →
        (React.step B s (React.Event.close i)).timers =
          s.timers ++ [{ delay := 1500, url := k.url }]) ∧
      (∀ (s : React.State) t rest, s.timers = t :: rest →
        React.step B s React.Event.timer = React.connect B t.url { s with timers := rest }) ∧
      (∀ (s : React.State) url, B.validUrl url = true →
        (React.connect B url s).sockets.length = s.sockets.length + 1 ∧
        (React.connect B url s).sockets[s.sockets.length]? = some (Socket.create url) ∧
        (React.connect B url s).timers = s.timers) ∧
      (∀ cw ch now, B.validUrl "ws://localhost:8000/ws" = true →
        (React.run B (React.start cw ch now)
          (React.Event.click :: React.closeAndRetry n)).sockets.length = n + 1 ∧
        (∀ j, j < n → ((React.run B (React.start cw ch now)
          (React.Event.click :: React.closeAndRetry n)).sockets[j]?).map Socket.readyState =
            some ReadyState.CLOSED) ∧
        ((React.run B (React.start cw ch now)
          (React.Event.click :: React.closeAndRetry n)).sockets[n]?).map Socket.readyState =
            some ReadyState.CONNECTING)) := by
  refine ⟨⟨fun s => rfl, ?_, ?_, ?_, ?_⟩, ⟨fun s i => ⟨_, rfl⟩, ?_, ?_, ?_, ?_⟩⟩
  · intro s i k hk hc
    simp [Vanilla.step, hk, hc, Vanilla.onClose, Vanilla.setStatus, Vanilla.reconnectInterval]
  · intro s d rest ht
    simp [Vanilla.step, ht]
  · intro s hu
    simp [Vanilla.connect, hu]
  · intro page hu
    obtain ⟨h1, -, -, h4, h5⟩ := vanilla_retry_rounds B page hu n
    exact ⟨h1, h4, by rw [h5]; rfl⟩
  · intro s i k hk hc
    simp [React.step, hk, hc, React.onClose, getElem?_updateAt_self]
  · intro s t rest ht
    simp [React.step, ht]
  · intro s url hu
    have hlen : ∀ l : List Socket, l.length = s.sockets.length →
        (l ++ [Socket.create url]).length = s.sockets.length + 1 ∧
        (l ++ [Socket.create url])[s.sockets.length]? = some (Socket.create url) := by
      intro l hl
      refine ⟨by simp [hl], ?_⟩
      rw [List.getElem?_append_right (by omega)]
      simp [hl]
    unfold React.connect
    simp only [hu, if_true]
    split
    · split
      · split_ifs
        · exact ⟨(hlen _ (updateAt_length _ _ _)).1,
            (hlen _ (updateAt_length s.sockets _ Socket.close)).2, rfl⟩
        · exact ⟨(hlen _ rfl).1, (hlen _ rfl).2, rfl⟩
      · exact ⟨(hlen _ rfl).1, (hlen _ rfl).2, rfl⟩
    · exact ⟨(hlen _ rfl).1, (hlen _ rfl).2, rfl⟩
  · intro cw ch now hu
    obtain ⟨h1, -, -, h4, h5⟩ := react_retry_rounds B cw ch now hu n
    exact ⟨h1, h4, by rw [h5]; rfl⟩

/-- C5 on the example page and component: the close of the connecting socket
leaves one timer of 1500 ms, and after two failed attempts there are three
sockets, the third one connecting. -/
theorem reconnect_after_close_witness :
    ((Vanilla.step exampleBrowser Vanilla.exampleConnecting (Vanilla.Event.close 0)).timers =
        [1500] ∧
      (Vanilla.run exampleBrowser (Vanilla.start Vanilla.examplePage)
        (Vanilla.Event.click :: Vanilla.closeAndRetry 2)).sockets.length = 3 ∧
      ((Vanilla.run exampleBrowser (Vanilla.start Vanilla.examplePage)
        (Vanilla.Event.click :: Vanilla.closeAndRetry 2)).sockets[2]?).map Socket.readyState =
          some ReadyState.CONNECTING) ∧
    ((React.step exampleBrowser React.exampleConnecting (React.Event.close 0)).timers =
        [{ delay := 1500, url := "ws://localhost:8000/ws" }] ∧
      (React.run exampleBrowser (React.start 1700 1100 0)
        (React.Event.click :: React.closeAndRetry 2)).sockets.length = 3 ∧
      ((React.run exampleBrowser (React.start 1700 1100 0)
        (React.Event.click :: React.closeAndRetry 2)).sockets[2]?).map Socket.readyState =
          some ReadyState.CONNECTING) :=
  ⟨⟨(reconnect_after_close exampleBrowser 2).1.2.1 Vanilla.exampleConnecting 0
        (Socket.create "ws://localhost:8000/ws") (by decide) (by decide),
      ((reconnect_after_close exampleBrowser 2).1.2.2.2.2 Vanilla.examplePage (by decide)).1,
      ((reconnect_after_close exampleBrowser 2).1.2.2.2.2 Vanilla.examplePage (by decide)).2.2⟩,
    ⟨(reconnect_after_close exampleBrowser 2).2.2.1 React.exampleConnecting 0
        (Socket.create "ws://localhost:8000/ws") (by decide) (by decide),
      ((reconnect_after_close exampleBrowser 2).2.2.2.2.2 1700 1100 0 (by decide)).1,
      ((reconnect_after_close exampleBrowser 2).2.2.2.2.2 1700 1100 0 (by decide)).2.2⟩⟩

end GCID
